import Mathlib

/-!
Verification development for the CloudFormation-to-Terraform migration tool.

The definitions below are a shallow embedding of the conversion engine
(`conversion.py`) and the import executor (`imports.py`).  Python values are
modelled by the inductive type `Value`; Python dictionaries are association
lists preserving insertion order; Python exceptions are modelled by the
`Except PyErr` monad; calls to the logger are modelled as a `List String`
side channel threaded through the expression resolver.  The recursive
resolver `process_value` is given explicit fuel (structural recursion on a
`Nat`), so that all definitions are executable and concrete runs reduce by
`rfl`; theorems about the resolver quantify over the fuel.
-/

namespace CFTF

/-- Python values appearing in CloudFormation templates: strings, integers,
booleans, `None`, lists, and string-keyed dictionaries (modelled as ordered
association lists). -/
inductive Value where
  | str (s : String)
  | int (n : Int)
  | bool (b : Bool)
  | null
  | list (xs : List Value)
  | dict (kvs : List (String × Value))

/-- Python exception kinds that the conversion engine can raise or catch. -/
inductive PyErr where
  | typeError (msg : String)
  | keyError (msg : String)
  | attrError (msg : String)
  | err (msg : String)

/-- The message carried by an exception, as `str(e)` would produce it. -/
def pyErrStr : PyErr → String
  | .typeError m => m
  | .keyError m => m
  | .attrError m => m
  | .err m => m

/-- Ordered association-list lookup, mirroring Python `dict.get` for
string-keyed dictionaries. -/
def alookup {α : Type} : List (String × α) → String → Option α
  | [], _ => none
  | (k, v) :: rest, key => if k == key then some v else alookup rest key

/-- Python `d[k] = v` on an ordered dictionary: update in place when the key
exists, append otherwise. -/
def pyDictSet {α : Type} (d : List (String × α)) (k : String) (v : α) : List (String × α) :=
  if (alookup d k).isSome then d.map (fun kv => if kv.1 == k then (k, v) else kv)
  else d ++ [(k, v)]

/-- Python `d.update(e)` on ordered dictionaries. -/
def pyDictUpdate {α : Type} (d e : List (String × α)) : List (String × α) :=
  e.foldl (fun acc kv => pyDictSet acc kv.1 kv.2) d

/-- Python `d.pop(k)`-style removal of a key. -/
def pyDictDel {α : Type} (d : List (String × α)) (k : String) : List (String × α) :=
  d.filter (fun kv => !(kv.1 == k))

/-- Whether the character list `needle` is an initial segment of `hay`. -/
def takeMatch : List Char → List Char → Bool
  | [], _ => true
  | _ :: _, [] => false
  | a :: an, b :: bn => a == b && takeMatch an bn

/-- Whether `needle` occurs contiguously inside `hay`
(Python `needle in hay` on strings). -/
def hasSubList : List Char → List Char → Bool
  | _, [] => true
  | [], _ :: _ => false
  | hay@(_ :: hs), needle => takeMatch needle hay || hasSubList hs needle

/-- Python substring membership `needle in hay`. -/
def strContainsSub (hay needle : String) : Bool :=
  hasSubList hay.data needle.data

/-- Python `s.lower()` (a computable character-list implementation). -/
def strToLower (s : String) : String :=
  String.mk (s.data.map Char.toLower)

/-- Python `s.startswith(p)` (a computable character-list implementation). -/
def strStartsWith (s p : String) : Bool :=
  takeMatch p.data s.data

/-- Python `s.strip()` (a computable character-list implementation). -/
def strStrip (s : String) : String :=
  String.mk (((s.data.dropWhile Char.isWhitespace).reverse.dropWhile Char.isWhitespace).reverse)

/-- Python truthiness of a value. -/
def pyTruthy : Value → Bool
  | .str s => !(s == "")
  | .int n => !(n == 0)
  | .bool b => b
  | .null => false
  | .list xs => !xs.isEmpty
  | .dict kvs => !kvs.isEmpty

/-- View a value as a dictionary, returning the entry list (used where the
surrounding code has already guaranteed the dictionary shape). -/
def asDict : Value → List (String × Value)
  | .dict kvs => kvs
  | _ => []

/-- View a value as a dictionary; a non-dictionary raises the
`AttributeError` that Python `.items()` would raise. -/
def asDictE : Value → Except PyErr (List (String × Value))
  | .dict kvs => .ok kvs
  | _ => .error (.attrError "object has no attribute items")

/-- The opening brace character, written numerically. -/
def lbraceC : Char := Char.ofNat 123

/-- The closing brace character, written numerically. -/
def rbraceC : Char := Char.ofNat 125

mutual

/-- Python `repr` of a value (string quoting approximated without escapes). -/
def pyRepr : Value → String
  | .str s => "\x27" ++ s ++ "\x27"
  | .int n => toString n
  | .bool b => if b then "True" else "False"
  | .null => "None"
  | .list xs => "[" ++ pyReprList xs ++ "]"
  | .dict kvs => "\x7b" ++ pyReprEntries kvs ++ "\x7d"

/-- Comma-separated `repr` of list elements. -/
def pyReprList : List Value → String
  | [] => ""
  | [x] => pyRepr x
  | x :: xs => pyRepr x ++ ", " ++ pyReprList xs

/-- Comma-separated `repr` of dictionary entries. -/
def pyReprEntries : List (String × Value) → String
  | [] => ""
  | [(k, v)] => "\x27" ++ k ++ "\x27: " ++ pyRepr v
  | (k, v) :: kvs => "\x27" ++ k ++ "\x27: " ++ pyRepr v ++ ", " ++ pyReprEntries kvs

end

/-- Python `str` of a value, as used by f-string interpolation: a string
renders as itself, containers render their elements with `repr`. -/
def pyStr : Value → String
  | .str s => s
  | .int n => toString n
  | .bool b => if b then "True" else "False"
  | .null => "None"
  | .list xs => "[" ++ pyReprList xs ++ "]"
  | .dict kvs => "\x7b" ++ pyReprEntries kvs ++ "\x7d"

mutual

/-- The `json.dumps` serialization of a value (string escaping omitted),
used for IAM trust-policy documents. -/
def pyJson : Value → String
  | .str s => "\"" ++ s ++ "\""
  | .int n => toString n
  | .bool b => if b then "true" else "false"
  | .null => "null"
  | .list xs => "[" ++ pyJsonList xs ++ "]"
  | .dict kvs => "\x7b" ++ pyJsonEntries kvs ++ "\x7d"

/-- Comma-separated JSON list elements. -/
def pyJsonList : List Value → String
  | [] => ""
  | [x] => pyJson x
  | x :: xs => pyJson x ++ ", " ++ pyJsonList xs

/-- Comma-separated JSON object entries. -/
def pyJsonEntries : List (String × Value) → String
  | [] => ""
  | [(k, v)] => "\"" ++ k ++ "\": " ++ pyJson v
  | (k, v) :: kvs => "\"" ++ k ++ "\": " ++ pyJson v ++ ", " ++ pyJsonEntries kvs

end

/-- Python `len` of a value (`TypeError` on numbers and booleans). -/
def pyLen : Value → Except PyErr Nat
  | .str s => .ok s.length
  | .list xs => .ok xs.length
  | .dict kvs => .ok kvs.length
  | _ => .error (.typeError "object has no len")

/-- Python iteration over a value: lists yield elements, strings yield
one-character strings, dictionaries yield their keys. -/
def pyIterate : Value → Except PyErr (List Value)
  | .list xs => .ok xs
  | .str s => .ok (s.data.map (fun c => .str (String.mk [c])))
  | .dict kvs => .ok (kvs.map (fun kv => .str kv.1))
  | _ => .error (.typeError "object is not iterable")

/-- Python tuple unpacking `a, b = v` after a length-2 check. -/
def pyUnpack2 : Value → Except PyErr (Value × Value)
  | .list [a, b] => .ok (a, b)
  | .str s =>
    match s.data with
    | [a, b] => .ok (.str (String.mk [a]), .str (String.mk [b]))
    | _ => .error (.err "cannot unpack")
  | .dict [(k1, _), (k2, _)] => .ok (.str k1, .str k2)
  | _ => .error (.err "cannot unpack")

/-- Python tuple unpacking `a, b, c = v` after a length-3 check. -/
def pyUnpack3 : Value → Except PyErr (Value × Value × Value)
  | .list [a, b, c] => .ok (a, b, c)
  | .str s =>
    match s.data with
    | [a, b, c] => .ok (.str (String.mk [a]), .str (String.mk [b]), .str (String.mk [c]))
    | _ => .error (.err "cannot unpack")
  | .dict [(k1, _), (k2, _), (k3, _)] => .ok (.str k1, .str k2, .str k3)
  | _ => .error (.err "cannot unpack")

/-- Subscripting `v[key]` with a string key: dictionary lookup with
`KeyError` on a missing key, `TypeError` on non-dictionaries. -/
def valueIndex : Value → String → Except PyErr Value
  | .dict d, k =>
    match alookup d k with
    | some x => .ok x
    | none => .error (.keyError k)
  | .str _, _ => .error (.typeError "string indices must be integers")
  | .list _, _ => .error (.typeError "list indices must be integers")
  | _, _ => .error (.typeError "object is not subscriptable")

/-- Membership of a value in a string-keyed dictionary (`k in d`):
non-string hashables are simply absent, unhashables raise `TypeError`. -/
def pyInDict (k : Value) (d : List (String × Value)) : Except PyErr Bool :=
  match k with
  | .str s => .ok (alookup d s).isSome
  | .int _ => .ok false
  | .bool _ => .ok false
  | .null => .ok false
  | _ => .error (.typeError "unhashable type")

/-- The `ResourceMapper.RESOURCE_TYPE_MAPPING` table from `conversion.py`:
CloudFormation resource types to Terraform resource types. -/
def RESOURCE_TYPE_MAPPING : List (String × String) := [
  ("AWS::EC2::Instance", "aws_instance"),
  ("AWS::EC2::LaunchTemplate", "aws_launch_template"),
  ("AWS::EC2::LaunchConfiguration", "aws_launch_configuration"),
  ("AWS::AutoScaling::AutoScalingGroup", "aws_autoscaling_group"),
  ("AWS::AutoScaling::LaunchConfiguration", "aws_launch_configuration"),
  ("AWS::Lambda::Function", "aws_lambda_function"),
  ("AWS::Lambda::Permission", "aws_lambda_permission"),
  ("AWS::Lambda::Alias", "aws_lambda_alias"),
  ("AWS::Lambda::Version", "aws_lambda_version"),
  ("AWS::ECS::Cluster", "aws_ecs_cluster"),
  ("AWS::ECS::Service", "aws_ecs_service"),
  ("AWS::ECS::TaskDefinition", "aws_ecs_task_definition"),
  ("AWS::EC2::VPC", "aws_vpc"),
  ("AWS::EC2::Subnet", "aws_subnet"),
  ("AWS::EC2::InternetGateway", "aws_internet_gateway"),
  ("AWS::EC2::VPCGatewayAttachment", "aws_internet_gateway_attachment"),
  ("AWS::EC2::RouteTable", "aws_route_table"),
  ("AWS::EC2::Route", "aws_route"),
  ("AWS::EC2::SubnetRouteTableAssociation", "aws_route_table_association"),
  ("AWS::EC2::SecurityGroup", "aws_security_group"),
  ("AWS::EC2::SecurityGroupIngress", "aws_security_group_rule"),
  ("AWS::EC2::SecurityGroupEgress", "aws_security_group_rule"),
  ("AWS::EC2::NatGateway", "aws_nat_gateway"),
  ("AWS::EC2::EIP", "aws_eip"),
  ("AWS::EC2::EIPAssociation", "aws_eip_association"),
  ("AWS::EC2::NetworkInterface", "aws_network_interface"),
  ("AWS::EC2::NetworkInterfaceAttachment", "aws_network_interface_attachment"),
  ("AWS::ElasticLoadBalancing::LoadBalancer", "aws_elb"),
  ("AWS::ElasticLoadBalancingV2::LoadBalancer", "aws_lb"),
  ("AWS::ElasticLoadBalancingV2::TargetGroup", "aws_lb_target_group"),
  ("AWS::ElasticLoadBalancingV2::Listener", "aws_lb_listener"),
  ("AWS::ElasticLoadBalancingV2::ListenerRule", "aws_lb_listener_rule"),
  ("AWS::S3::Bucket", "aws_s3_bucket"),
  ("AWS::S3::BucketPolicy", "aws_s3_bucket_policy"),
  ("AWS::S3::BucketNotification", "aws_s3_bucket_notification"),
  ("AWS::EBS::Volume", "aws_ebs_volume"),
  ("AWS::EC2::VolumeAttachment", "aws_volume_attachment"),
  ("AWS::EFS::FileSystem", "aws_efs_file_system"),
  ("AWS::EFS::MountTarget", "aws_efs_mount_target"),
  ("AWS::RDS::DBInstance", "aws_db_instance"),
  ("AWS::RDS::DBCluster", "aws_rds_cluster"),
  ("AWS::RDS::DBSubnetGroup", "aws_db_subnet_group"),
  ("AWS::RDS::DBParameterGroup", "aws_db_parameter_group"),
  ("AWS::RDS::DBClusterParameterGroup", "aws_rds_cluster_parameter_group"),
  ("AWS::DynamoDB::Table", "aws_dynamodb_table"),
  ("AWS::ElastiCache::CacheCluster", "aws_elasticache_cluster"),
  ("AWS::ElastiCache::ReplicationGroup", "aws_elasticache_replication_group"),
  ("AWS::ElastiCache::SubnetGroup", "aws_elasticache_subnet_group"),
  ("AWS::IAM::Role", "aws_iam_role"),
  ("AWS::IAM::Policy", "aws_iam_policy"),
  ("AWS::IAM::User", "aws_iam_user"),
  ("AWS::IAM::Group", "aws_iam_group"),
  ("AWS::IAM::InstanceProfile", "aws_iam_instance_profile"),
  ("AWS::IAM::RolePolicyAttachment", "aws_iam_role_policy_attachment"),
  ("AWS::IAM::UserPolicyAttachment", "aws_iam_user_policy_attachment"),
  ("AWS::IAM::GroupPolicyAttachment", "aws_iam_group_policy_attachment"),
  ("AWS::Route53::HostedZone", "aws_route53_zone"),
  ("AWS::Route53::RecordSet", "aws_route53_record"),
  ("AWS::CloudFront::Distribution", "aws_cloudfront_distribution"),
  ("AWS::CloudFront::OriginAccessIdentity", "aws_cloudfront_origin_access_identity"),
  ("AWS::ApiGateway::RestApi", "aws_api_gateway_rest_api"),
  ("AWS::ApiGateway::Resource", "aws_api_gateway_resource"),
  ("AWS::ApiGateway::Method", "aws_api_gateway_method"),
  ("AWS::ApiGateway::Deployment", "aws_api_gateway_deployment"),
  ("AWS::ApiGateway::Stage", "aws_api_gateway_stage"),
  ("AWS::SNS::Topic", "aws_sns_topic"),
  ("AWS::SNS::Subscription", "aws_sns_topic_subscription"),
  ("AWS::SQS::Queue", "aws_sqs_queue"),
  ("AWS::CloudWatch::Alarm", "aws_cloudwatch_metric_alarm"),
  ("AWS::CloudWatch::Dashboard", "aws_cloudwatch_dashboard"),
  ("AWS::Logs::LogGroup", "aws_cloudwatch_log_group"),
  ("AWS::Logs::LogStream", "aws_cloudwatch_log_stream"),
  ("AWS::KMS::Key", "aws_kms_key"),
  ("AWS::KMS::Alias", "aws_kms_alias"),
  ("AWS::SecretsManager::Secret", "aws_secretsmanager_secret"),
  ("AWS::SecretsManager::SecretVersion", "aws_secretsmanager_secret_version"),
  ("AWS::CloudFormation::Stack", "terraform_module")]

/-- The `ResourceMapper.PROPERTY_MAPPINGS` table: per-Terraform-type renames
of CloudFormation property names. -/
def PROPERTY_MAPPINGS : List (String × List (String × String)) := [
  ("aws_instance", [
    ("ImageId", "ami"),
    ("InstanceType", "instance_type"),
    ("KeyName", "key_name"),
    ("SecurityGroups", "security_groups"),
    ("SecurityGroupIds", "vpc_security_group_ids"),
    ("SubnetId", "subnet_id"),
    ("UserData", "user_data"),
    ("IamInstanceProfile", "iam_instance_profile"),
    ("Tags", "tags"),
    ("BlockDeviceMappings", "ebs_block_device"),
    ("Monitoring", "monitoring"),
    ("DisableApiTermination", "disable_api_termination"),
    ("EbsOptimized", "ebs_optimized"),
    ("SourceDestCheck", "source_dest_check")]),
  ("aws_vpc", [
    ("CidrBlock", "cidr_block"),
    ("EnableDnsHostnames", "enable_dns_hostnames"),
    ("EnableDnsSupport", "enable_dns_support"),
    ("InstanceTenancy", "instance_tenancy"),
    ("Tags", "tags")]),
  ("aws_subnet", [
    ("VpcId", "vpc_id"),
    ("CidrBlock", "cidr_block"),
    ("AvailabilityZone", "availability_zone"),
    ("MapPublicIpOnLaunch", "map_public_ip_on_launch"),
    ("Tags", "tags")]),
  ("aws_security_group", [
    ("GroupDescription", "description"),
    ("GroupName", "name"),
    ("VpcId", "vpc_id"),
    ("SecurityGroupIngress", "ingress"),
    ("SecurityGroupEgress", "egress"),
    ("Tags", "tags")]),
  ("aws_s3_bucket", [
    ("BucketName", "bucket"),
    ("AccessControl", "acl"),
    ("BucketEncryption", "server_side_encryption_configuration"),
    ("PublicAccessBlockConfiguration", "public_access_block"),
    ("VersioningConfiguration", "versioning"),
    ("Tags", "tags")]),
  ("aws_db_instance", [
    ("DBInstanceIdentifier", "identifier"),
    ("DBInstanceClass", "instance_class"),
    ("Engine", "engine"),
    ("EngineVersion", "engine_version"),
    ("AllocatedStorage", "allocated_storage"),
    ("StorageType", "storage_type"),
    ("StorageEncrypted", "storage_encrypted"),
    ("KmsKeyId", "kms_key_id"),
    ("DBName", "db_name"),
    ("MasterUsername", "username"),
    ("MasterUserPassword", "password"),
    ("VPCSecurityGroups", "vpc_security_group_ids"),
    ("DBSubnetGroupName", "db_subnet_group_name"),
    ("ParameterGroupName", "parameter_group_name"),
    ("BackupRetentionPeriod", "backup_retention_period"),
    ("PreferredBackupWindow", "backup_window"),
    ("PreferredMaintenanceWindow", "maintenance_window"),
    ("MultiAZ", "multi_az"),
    ("PubliclyAccessible", "publicly_accessible"),
    ("Tags", "tags")])]

/-- The `ResourceMapper.get_terraform_type` lookup. -/
def get_terraform_type (cfType : String) : Option String :=
  alookup RESOURCE_TYPE_MAPPING cfType

/-- A `Type` field viewed through `dict.get`: only string type tags occur in
the mapping table, so non-strings look up to `none`. -/
def getTerraformTypeV : Value → Option String
  | .str s => get_terraform_type s
  | _ => none

/-- The `ResourceMapper.map_properties` transformation: rename each property
through the per-Terraform-type table, falling back to lowercasing the key. -/
def map_properties (cfType : String) (cfProperties : Value) : Except PyErr Value :=
  match get_terraform_type cfType with
  | none => .ok cfProperties
  | some tt =>
    let pmap := (alookup PROPERTY_MAPPINGS tt).getD []
    match cfProperties with
    | .dict kvs =>
      .ok (.dict (kvs.foldl (fun acc kv =>
        pyDictSet acc ((alookup pmap kv.1).getD (strToLower kv.1)) kv.2) []))
    | _ => .error (.attrError "object has no attribute items")

/-- The state of an `IntrinsicFunctionHandler`: the template's parameter and
mapping sections (consulted as dictionaries). -/
structure Handler where
  parameters : List (String × Value)
  mappings : List (String × Value)

/-- The resolution context passed to `process_value`: the template's
`Resources` section, read through `context.get` with key `resources`. -/
structure Ctx where
  resources : List (String × Value)

/-- The result of one resolver step: warnings emitted through the logger,
and either a resolved value or a raised exception. -/
abbrev RV := List String × Except PyErr Value

/-- Return a value with no log output. -/
def rvOk (v : Value) : RV := ([], .ok v)

/-- Raise an exception with no log output. -/
def rvErr (e : PyErr) : RV := ([], .error e)

/-- Sequencing of logged fallible computations: logs accumulate, the first
exception aborts. -/
def rvBind {α β : Type} (r : List String × Except PyErr α)
    (f : α → List String × Except PyErr β) : List String × Except PyErr β :=
  match r with
  | (ls, .error e) => (ls, .error e)
  | (ls, .ok a) =>
    let (ls2, rb) := f a
    (ls ++ ls2, rb)

/-- Left-to-right resolution of a list of values (a list comprehension). -/
def rvList (pv : Value → RV) : List Value → List String × Except PyErr (List Value)
  | [] => ([], .ok [])
  | x :: xs =>
    rvBind (pv x) fun v =>
      rvBind (rvList pv xs) fun vs => ([], .ok (v :: vs))

/-- Left-to-right resolution of dictionary entries (a dict comprehension). -/
def rvEntries (pv : Value → RV) :
    List (String × Value) → List String × Except PyErr (List (String × Value))
  | [] => ([], .ok [])
  | (k, x) :: kvs =>
    rvBind (pv x) fun v =>
      rvBind (rvEntries pv kvs) fun rest => ([], .ok ((k, v) :: rest))

/-- The pseudo-parameter table consulted by `_handle_ref`. -/
def awsPseudoParamsRef : List (String × String) := [
  ("AWS::Region", "data.aws_region.current.name"),
  ("AWS::AccountId", "data.aws_caller_identity.current.account_id"),
  ("AWS::StackName", "var.stack_name"),
  ("AWS::StackId", "var.stack_id"),
  ("AWS::Partition", "data.aws_partition.current.partition")]

/-- Python equality of a value against a string literal (cross-type
comparisons are `False`). -/
def isStrEq (v : Value) (s : String) : Bool :=
  match v with
  | .str t => t == s
  | _ => false

/-- The `resource_info.get` of a resource's `Type` field. -/
def refTypeOf (ri : Value) : Value :=
  match ri with
  | .dict d => (alookup d "Type").getD (.str "")
  | _ => .str ""

/-- The `_handle_ref` resolver: parameter reference, then a per-source-type
resource reference (falling through when the source type has no mapping),
then pseudo parameters, then the unresolved marker.  No warning is recorded
for an unresolved name. -/
def handle_ref (h : Handler) (ctx : Ctx) (resourceName : String) : String :=
  if (alookup h.parameters resourceName).isSome then "var." ++ strToLower resourceName
  else
    let viaResource : Option String :=
      match alookup ctx.resources resourceName with
      | some ri =>
        let rt := refTypeOf ri
        if isStrEq rt "AWS::EC2::Instance" then
          some ("aws_instance." ++ strToLower resourceName ++ ".id")
        else if isStrEq rt "AWS::EC2::VPC" then
          some ("aws_vpc." ++ strToLower resourceName ++ ".id")
        else if isStrEq rt "AWS::EC2::Subnet" then
          some ("aws_subnet." ++ strToLower resourceName ++ ".id")
        else if isStrEq rt "AWS::EC2::SecurityGroup" then
          some ("aws_security_group." ++ strToLower resourceName ++ ".id")
        else if isStrEq rt "AWS::S3::Bucket" then
          some ("aws_s3_bucket." ++ strToLower resourceName ++ ".id")
        else
          match getTerraformTypeV rt with
          | some tt => some (tt ++ "." ++ strToLower resourceName ++ ".id")
          | none => none
      | none => none
    match viaResource with
    | some r => r
    | none =>
      match alookup awsPseudoParamsRef resourceName with
      | some p => p
      | none => "# TODO: Resolve reference to " ++ resourceName

/-- The `Ref` dispatch applied to an arbitrary argument value: non-string
hashables miss every dictionary and reach the unresolved marker, unhashable
arguments raise `TypeError`. -/
def handle_ref_value (h : Handler) (ctx : Ctx) (v : Value) : Except PyErr String :=
  match v with
  | .str s => .ok (handle_ref h ctx s)
  | .int _ => .ok ("# TODO: Resolve reference to " ++ pyStr v)
  | .bool _ => .ok ("# TODO: Resolve reference to " ++ pyStr v)
  | .null => .ok ("# TODO: Resolve reference to " ++ pyStr v)
  | _ => .error (.typeError "unhashable type")

/-- The per-source-type attribute rename tables of `_handle_get_att`. -/
def attributeMappingsGetAtt : List (String × List (String × String)) := [
  ("AWS::EC2::Instance", [
    ("PrivateIp", "private_ip"),
    ("PublicIp", "public_ip"),
    ("PrivateDnsName", "private_dns"),
    ("PublicDnsName", "public_dns"),
    ("AvailabilityZone", "availability_zone")]),
  ("AWS::EC2::VPC", [
    ("CidrBlock", "cidr_block"),
    ("DefaultNetworkAcl", "default_network_acl_id"),
    ("DefaultSecurityGroup", "default_security_group_id")]),
  ("AWS::S3::Bucket", [
    ("Arn", "arn"),
    ("DomainName", "bucket_domain_name"),
    ("RegionalDomainName", "bucket_regional_domain_name")]),
  ("AWS::RDS::DBInstance", [
    ("Endpoint.Address", "endpoint"),
    ("Endpoint.Port", "port")])]

/-- The `Fn::GetAtt` resolver. -/
def handle_get_att (ctx : Ctx) (args : Value) : Except PyErr String :=
  match pyLen args with
  | .error e => .error e
  | .ok n =>
    if n != 2 then .ok ("# TODO: Invalid GetAtt arguments: " ++ pyStr args)
    else
      match pyUnpack2 args with
      | .error e => .error e
      | .ok (rn, attrV) =>
        let todo := "# TODO: GetAtt " ++ pyStr rn ++ "." ++ pyStr attrV
        match rn with
        | .str rns =>
          match alookup ctx.resources rns with
          | some ri =>
            let rt := refTypeOf ri
            let ttO := getTerraformTypeV rt
            let amapO : Option (List (String × String)) :=
              match rt with
              | .str rts => alookup attributeMappingsGetAtt rts
              | _ => none
            match ttO, amapO with
            | some tt, some amap =>
              match attrV with
              | .str attrS =>
                .ok (tt ++ "." ++ strToLower rns ++ "." ++
                  ((alookup amap attrS).getD (strToLower attrS)))
              | _ => .error (.attrError "object has no attribute lower")
            | _, _ => .ok todo
          | none => .ok todo
        | _ => .ok todo

/-- Helper for `_handle_join`: resolve each element, double-quoting
resolved strings and stringifying anything else. -/
def joinQuoted (pv : Value → RV) : List Value → List String × Except PyErr (List String)
  | [] => ([], .ok [])
  | x :: xs =>
    rvBind (pv x) fun v =>
      rvBind (joinQuoted pv xs) fun rest =>
        ([], .ok ((match v with
                   | .str sv => "\"" ++ sv ++ "\""
                   | other => pyStr other) :: rest))

/-- Comma-style joining of rendered pieces. -/
def joinWith (sep : String) : List String → String
  | [] => ""
  | [x] => x
  | x :: xs => x ++ sep ++ joinWith sep xs

/-- The `Fn::Join` resolver. -/
def handle_join (pv : Value → RV) (args : Value) : RV :=
  match pyLen args with
  | .error e => rvErr e
  | .ok n =>
    if n != 2 then rvOk (.str ("# TODO: Invalid Join arguments: " ++ pyStr args))
    else
      match pyUnpack2 args with
      | .error e => rvErr e
      | .ok (delim, values) =>
        match pyIterate values with
        | .error e => rvErr e
        | .ok items =>
          rvBind (joinQuoted pv items) fun parts =>
            ([], .ok (.str ("join(\"" ++ pyStr delim ++ "\", [" ++
              joinWith ", " parts ++ "])")))

/-- The pseudo-parameter table consulted inside `_handle_sub`. -/
def awsPseudoParamsSubTable : List (String × String) := [
  ("AWS::Region", "data.aws_region.current.name"),
  ("AWS::AccountId", "data.aws_caller_identity.current.account_id"),
  ("AWS::StackName", "var.stack_name")]

/-- Re-wrap a replacement into interpolation syntax, as the f-strings inside
`replace_var` do. -/
def substWrap (s : String) : String :=
  "$" ++ String.mk [lbraceC] ++ s ++ String.mk [rbraceC]

/-- The `replace_var` closure of `_handle_sub`: resolve one placeholder name
by, in order, the explicit substitution map, the pseudo-parameter table (only
consulted for names starting with the pseudo prefix), the declared
parameters, the same-template resources, and finally verbatim. -/
def replace_var (h : Handler) (ctx : Ctx) (processedVars : List (String × Value))
    (varName : String) : String :=
  match alookup processedVars varName with
  | some v => substWrap (pyStr v)
  | none =>
    if strStartsWith varName "AWS::" && (alookup awsPseudoParamsSubTable varName).isSome then
      substWrap ((alookup awsPseudoParamsSubTable varName).getD "")
    else if (alookup h.parameters varName).isSome then
      substWrap ("var." ++ strToLower varName)
    else if (alookup ctx.resources varName).isSome then
      substWrap (handle_ref h ctx varName)
    else
      substWrap varName

/-- A segment of an interpolation template: a literal character or a
placeholder name. -/
inductive SubSeg where
  | lit (c : Char)
  | ph (name : String)

/-- Scan forward for the closing brace of a placeholder, returning its
non-empty content and the rest of the input (the regex `[^}]+` must match at
least one character). -/
def phSplit : List Char → List Char → Option (List Char × List Char)
  | _, [] => none
  | acc, c :: cs =>
    if c = rbraceC then
      if acc.isEmpty then none else some (acc.reverse, cs)
    else phSplit (c :: acc) cs

/-- Fueled scanner for the placeholder pattern used by `re.sub` in
`_handle_sub` (leftmost, non-overlapping matches). -/
def scanSubF : Nat → List Char → List SubSeg
  | 0, _ => []
  | _ + 1, [] => []
  | fuel + 1, c :: cs =>
    if c = '$' then
      match cs with
      | b :: cs2 =>
        if b = lbraceC then
          match phSplit [] cs2 with
          | some (content, rest) => .ph (String.mk content) :: scanSubF fuel rest
          | none => .lit c :: scanSubF fuel cs
        else .lit c :: scanSubF fuel cs
      | [] => [.lit c]
    else .lit c :: scanSubF fuel cs

/-- Scan a template string into literal and placeholder segments; the fuel
bound exceeds the input length, so the scan always completes. -/
def scanSub (cs : List Char) : List SubSeg :=
  scanSubF (cs.length + 1) cs

/-- Rebuild the scanned template, resolving each placeholder through `f`. -/
def renderSub (f : String → String) : List SubSeg → String
  | [] => ""
  | .lit c :: rest => String.mk [c] ++ renderSub f rest
  | .ph n :: rest => f n ++ renderSub f rest

/-- The `Fn::Sub` resolver: accept a bare template string or a two-element
list of template string and substitution map, resolve the map's values, then
replace every placeholder through `replace_var` and double-quote the
result. -/
def handle_sub (h : Handler) (pv : Value → RV) (ctx : Ctx) (args : Value) : RV :=
  match args with
  | .str t =>
    ([], .ok (.str ("\"" ++ renderSub (replace_var h ctx []) (scanSub t.data) ++ "\"")))
  | .list [a, b] =>
    match b with
    | .dict vars =>
      rvBind (rvEntries pv vars) fun pvars =>
        match a with
        | .str t =>
          ([], .ok (.str ("\"" ++ renderSub (replace_var h ctx pvars) (scanSub t.data) ++ "\"")))
        | _ => ([], .error (.typeError "expected string or bytes-like object"))
    | _ => ([], .error (.attrError "object has no attribute items"))
  | _ => ([], .ok (.str ("# TODO: Invalid Sub arguments: " ++ pyStr args)))

/-- The `Fn::Select` resolver. -/
def handle_select (pv : Value → RV) (args : Value) : RV :=
  match pyLen args with
  | .error e => rvErr e
  | .ok n =>
    if n != 2 then rvOk (.str ("# TODO: Invalid Select arguments: " ++ pyStr args))
    else
      match pyUnpack2 args with
      | .error e => rvErr e
      | .ok (index, arr) =>
        rvBind (pv arr) fun pa =>
          ([], .ok (.str ("element(" ++ pyStr pa ++ ", " ++ pyStr index ++ ")")))

/-- The `Fn::Split` resolver. -/
def handle_split (pv : Value → RV) (args : Value) : RV :=
  match pyLen args with
  | .error e => rvErr e
  | .ok n =>
    if n != 2 then rvOk (.str ("# TODO: Invalid Split arguments: " ++ pyStr args))
    else
      match pyUnpack2 args with
      | .error e => rvErr e
      | .ok (delim, s) =>
        rvBind (pv s) fun ps =>
          ([], .ok (.str ("split(\"" ++ pyStr delim ++ "\", " ++ pyStr ps ++ ")")))

/-- The `Fn::Base64` resolver. -/
def handle_base64 (pv : Value → RV) (args : Value) : RV :=
  rvBind (pv args) fun p =>
    ([], .ok (.str ("base64encode(" ++ pyStr p ++ ")")))

/-- The `Fn::GetAZs` resolver. -/
def handle_get_azs (pv : Value → RV) (args : Value) : RV :=
  if isStrEq args "" then rvOk (.str "data.aws_availability_zones.available.names")
  else
    rvBind (pv args) fun p =>
      ([], .ok (.str ("# TODO: GetAZs for specific region " ++ pyStr p)))

/-- Whether an exception is caught by the `except (KeyError, TypeError)`
clause of `_handle_find_in_map`. -/
def isSoftErr : PyErr → Bool
  | .typeError _ => true
  | .keyError _ => true
  | _ => false

/-- The dynamic fallback of `_handle_find_in_map`: a Terraform local-value
lookup expression, re-resolving both keys. -/
def fimFallback (pv : Value → RV) (mName k1 k2 : Value) : RV :=
  match mName with
  | .str ms =>
    rvBind (pv k1) fun p1 =>
      rvBind (pv k2) fun p2 =>
        ([], .ok (.str ("local." ++ strToLower ms ++ "[" ++ pyStr p1 ++ "][" ++
          pyStr p2 ++ "]")))
  | _ => ([], .error (.attrError "object has no attribute lower"))

/-- Attach previously emitted logs in front of a fallback resolution. -/
def fimFallbackWith (pv : Value → RV) (logs : List String) (mName k1 k2 : Value) : RV :=
  let (l3, r3) := fimFallback pv mName k1 k2
  (logs ++ l3, r3)

/-- The `Fn::FindInMap` resolver: when the named table is known and both keys
resolve to literal strings found in it, substitute the literal value as a
quoted string; `KeyError` and `TypeError` during the static attempt are
swallowed and the dynamic lookup expression is emitted instead. -/
def handle_find_in_map (h : Handler) (pv : Value → RV) (args : Value) : RV :=
  match pyLen args with
  | .error e => rvErr e
  | .ok n =>
    if n != 3 then rvOk (.str ("# TODO: Invalid FindInMap arguments: " ++ pyStr args))
    else
      match pyUnpack3 args with
      | .error e => rvErr e
      | .ok (m, k1, k2) =>
        match pyInDict m h.mappings with
        | .error e => rvErr e
        | .ok inMap =>
          if inMap then
            match m with
            | .str ms =>
              match alookup h.mappings ms with
              | some mv =>
                let (l1, r1) := pv k1
                match r1 with
                | .error e =>
                  if isSoftErr e then fimFallbackWith pv l1 m k1 k2 else (l1, .error e)
                | .ok v1 =>
                  let (l2, r2) := pv k2
                  match r2 with
                  | .error e =>
                    if isSoftErr e then fimFallbackWith pv (l1 ++ l2) m k1 k2
                    else (l1 ++ l2, .error e)
                  | .ok v2 =>
                    match v1, v2 with
                    | .str s1, .str s2 =>
                      (match valueIndex mv s1 with
                       | .error e =>
                         if isSoftErr e then fimFallbackWith pv (l1 ++ l2) m k1 k2
                         else (l1 ++ l2, .error e)
                       | .ok x =>
                         match valueIndex x s2 with
                         | .error e =>
                           if isSoftErr e then fimFallbackWith pv (l1 ++ l2) m k1 k2
                           else (l1 ++ l2, .error e)
                         | .ok value =>
                           (l1 ++ l2, .ok (.str ("\"" ++ pyStr value ++ "\""))))
                    | _, _ => fimFallbackWith pv (l1 ++ l2) m k1 k2
              | none => fimFallback pv m k1 k2
            | _ => fimFallback pv m k1 k2
          else fimFallback pv m k1 k2

/-- The `Fn::If` resolver. -/
def handle_if (pv : Value → RV) (args : Value) : RV :=
  match pyLen args with
  | .error e => rvErr e
  | .ok n =>
    if n != 3 then rvOk (.str ("# TODO: Invalid If arguments: " ++ pyStr args))
    else
      match pyUnpack3 args with
      | .error e => rvErr e
      | .ok (cond, tv, fv) =>
        rvBind (pv tv) fun pt =>
          rvBind (pv fv) fun pf =>
            match cond with
            | .str cn =>
              ([], .ok (.str ("var." ++ strToLower cn ++ " - " ++ pyStr pt ++ " : " ++
                pyStr pf)))
            | _ => ([], .error (.attrError "object has no attribute lower"))

/-- The `_handle_intrinsic_function` dispatch: route each recognized function
name to its resolver; an unrecognized name logs a warning and resolves to a
marker string embedding the name and its raw arguments. -/
def handle_intrinsic_function (h : Handler) (pv : Value → RV) (ctx : Ctx)
    (funcName : String) (funcArgs : Value) : RV :=
  if funcName == "Ref" then
    match handle_ref_value h ctx funcArgs with
    | .ok s => rvOk (.str s)
    | .error e => rvErr e
  else if funcName == "Fn::GetAtt" then
    match handle_get_att ctx funcArgs with
    | .ok s => rvOk (.str s)
    | .error e => rvErr e
  else if funcName == "Fn::Join" then handle_join pv funcArgs
  else if funcName == "Fn::Sub" then handle_sub h pv ctx funcArgs
  else if funcName == "Fn::Select" then handle_select pv funcArgs
  else if funcName == "Fn::Split" then handle_split pv funcArgs
  else if funcName == "Fn::Base64" then handle_base64 pv funcArgs
  else if funcName == "Fn::GetAZs" then handle_get_azs pv funcArgs
  else if funcName == "Fn::FindInMap" then handle_find_in_map h pv funcArgs
  else if funcName == "Fn::If" then handle_if pv funcArgs
  else
    (["Unsupported intrinsic function: " ++ funcName],
     .ok (.str ("# TODO: Convert " ++ funcName ++ "(" ++ pyStr funcArgs ++ ")")))

/-- The reserved-name test of `process_value`: a single-key mapping is a
candidate function call exactly when its key has the function prefix or is
the bare reference alias. -/
def isReservedFunctionName (k : String) : Bool :=
  strStartsWith k "Fn::" || k == "Ref"

/-- One layer of `process_value`: dispatch single-key mappings with a
reserved key to the intrinsic handler, and resolve every other mapping,
list, and scalar structurally through the next layer `pv`. -/
def process_value_step (h : Handler) (pv : Value → RV) (ctx : Ctx) : Value → RV
  | .dict [(k, a)] =>
    if isReservedFunctionName k then handle_intrinsic_function h pv ctx k a
    else
      rvBind (rvEntries pv [(k, a)]) fun kvs => rvOk (.dict kvs)
  | .dict kvs =>
    rvBind (rvEntries pv kvs) fun kvs2 => rvOk (.dict kvs2)
  | .list xs =>
    rvBind (rvList pv xs) fun ys => rvOk (.list ys)
  | v => rvOk v

/-- The fueled `process_value` resolver; the fuel only bounds the recursion
depth of the Python original, which recurses on strict subterms. -/
def process_value (h : Handler) : Nat → Ctx → Value → RV
  | 0, _, _ => ([], .error (.err "maximum recursion depth exceeded"))
  | fuel + 1, ctx, v => process_value_step h (process_value h fuel ctx) ctx v

/-- Configuration flags of a `ConversionEngine`. -/
structure Engine where
  preserve_names : Bool
  handle_functions : Bool

/-- The engine constructed with its default arguments. -/
def defaultEngine : Engine := { preserve_names := true, handle_functions := true }

/-- The result record of a template conversion (execution times and logging
aside, the fields of the Python `ConversionResult` dataclass). -/
structure ConversionResult where
  terraform_config : List (String × Value)
  import_commands : List String
  variables_ : List (String × Value)
  outputs : List (String × Value)
  locals : List (String × Value)
  warnings : List String
  errors : List String

/-- The pieces returned by `_convert_resource` for one resource. -/
structure ConvParts where
  resources : List (String × Value)
  import_commands : List String
  warnings : List String

/-- The `_transform_security_group_rule` transform. -/
def transform_security_group_rule (properties : Value) (cfType : String) :
    Except PyErr Value :=
  match properties with
  | .dict kvs0 =>
    let direction := if strContainsSub cfType "Ingress" then "ingress" else "egress"
    let kvs1 := pyDictSet kvs0 "type" (.str direction)
    let kvs2 :=
      match alookup kvs1 "IpProtocol" with
      | some v => pyDictSet (pyDictDel kvs1 "IpProtocol") "protocol" v
      | none => kvs1
    let kvs3 :=
      match alookup kvs2 "FromPort" with
      | some v => pyDictSet (pyDictDel kvs2 "FromPort") "from_port" v
      | none => kvs2
    let kvs4 :=
      match alookup kvs3 "ToPort" with
      | some v => pyDictSet (pyDictDel kvs3 "ToPort") "to_port" v
      | none => kvs3
    let kvs5 :=
      match alookup kvs4 "CidrIp" with
      | some v => pyDictSet (pyDictDel kvs4 "CidrIp") "cidr_blocks" (.list [v])
      | none => kvs4
    .ok (.dict kvs5)
  | _ => .error (.attrError "object has no attribute copy")

/-- Membership test `k in v` for the shapes the S3 and Lambda transforms
inspect. -/
def pyIn (k : String) : Value → Except PyErr Bool
  | .dict kvs => .ok (alookup kvs k).isSome
  | .list xs => .ok (xs.any (fun x => isStrEq x k))
  | .str s => .ok (strContainsSub s k)
  | _ => .error (.typeError "argument is not iterable")

/-- The `_transform_s3_bucket` transform. -/
def transform_s3_bucket (properties : Value) : Except PyErr Value :=
  match properties with
  | .dict kvs0 =>
    match
      ((match alookup kvs0 "BucketEncryption" with
       | some enc =>
         let kvs1 := pyDictDel kvs0 "BucketEncryption"
         match pyIn "ServerSideEncryptionConfiguration" enc with
         | .error e => .error e
         | .ok true =>
           match valueIndex enc "ServerSideEncryptionConfiguration" with
           | .error e => .error e
           | .ok ssec =>
             .ok (pyDictSet kvs1 "server_side_encryption_configuration" ssec)
         | .ok false => .ok kvs1
       | none => .ok kvs0) : Except PyErr (List (String × Value))) with
    | .error e => .error e
    | .ok kvsA =>
      match alookup kvsA "VersioningConfiguration" with
      | some versioning =>
        let kvsB := pyDictDel kvsA "VersioningConfiguration"
        match versioning with
        | .dict vd =>
          let status := (alookup vd "Status").getD .null
          .ok (.dict (pyDictSet kvsB "versioning"
            (.dict [("enabled", .bool (isStrEq status "Enabled"))])))
        | _ => .error (.attrError "object has no attribute get")
      | none => .ok (.dict kvsA)
  | _ => .error (.attrError "object has no attribute copy")

/-- The `_transform_iam_role` transform. -/
def transform_iam_role (properties : Value) : Except PyErr Value :=
  match properties with
  | .dict kvs0 =>
    let kvsA :=
      match alookup kvs0 "AssumeRolePolicyDocument" with
      | some policyDoc =>
        let kvs1 := pyDictDel kvs0 "AssumeRolePolicyDocument"
        match policyDoc with
        | .dict _ => pyDictSet kvs1 "assume_role_policy" (.str (pyJson policyDoc))
        | _ => pyDictSet kvs1 "assume_role_policy" policyDoc
      | none => kvs0
    let kvsB :=
      match alookup kvsA "ManagedPolicyArns" with
      | some v => pyDictSet (pyDictDel kvsA "ManagedPolicyArns") "managed_policy_arns" v
      | none => kvsA
    .ok (.dict kvsB)
  | _ => .error (.attrError "object has no attribute copy")

/-- The `_transform_lambda_function` transform. -/
def transform_lambda_function (properties : Value) : Except PyErr Value :=
  match properties with
  | .dict kvs0 =>
    let ren := fun (kvs : List (String × Value)) (src dst : String) =>
      match alookup kvs src with
      | some v => pyDictSet (pyDictDel kvs src) dst v
      | none => kvs
    let kvs1 := ren kvs0 "FunctionName" "function_name"
    let kvs2 := ren kvs1 "Runtime" "runtime"
    let kvs3 := ren kvs2 "Handler" "handler"
    match alookup kvs3 "Code" with
    | some codeConfig =>
      let kvs4 := pyDictDel kvs3 "Code"
      match pyIn "S3Bucket" codeConfig with
      | .error e => .error e
      | .ok hasBucket =>
        match (if hasBucket then pyIn "S3Key" codeConfig else .ok false) with
        | .error e => .error e
        | .ok hasBoth =>
          if hasBoth then
            match valueIndex codeConfig "S3Bucket", valueIndex codeConfig "S3Key" with
            | .ok b, .ok k =>
              let kvs5 := pyDictSet (pyDictSet kvs4 "s3_bucket" b) "s3_key" k
              match pyIn "S3ObjectVersion" codeConfig with
              | .error e => .error e
              | .ok true =>
                match valueIndex codeConfig "S3ObjectVersion" with
                | .ok v => .ok (.dict (pyDictSet kvs5 "s3_object_version" v))
                | .error e => .error e
              | .ok false => .ok (.dict kvs5)
            | .error e, _ => .error e
            | _, .error e => .error e
          else
            match pyIn "ZipFile" codeConfig with
            | .error e => .error e
            | .ok true =>
              .ok (.dict (pyDictSet kvs4 "filename" (.str "lambda_function.zip")))
            | .ok false => .ok (.dict kvs4)
    | none => .ok (.dict kvs3)
  | _ => .error (.attrError "object has no attribute copy")

/-- The `_apply_resource_transformations` dispatch. -/
def apply_resource_transformations (cfType : String) (properties : Value)
    (_logicalId : String) : Except PyErr Value :=
  if cfType == "AWS::EC2::SecurityGroupIngress" || cfType == "AWS::EC2::SecurityGroupEgress" then
    transform_security_group_rule properties cfType
  else if cfType == "AWS::S3::Bucket" then transform_s3_bucket properties
  else if cfType == "AWS::IAM::Role" then transform_iam_role properties
  else if cfType == "AWS::Lambda::Function" then transform_lambda_function properties
  else .ok properties

/-- The Terraform types for which `_generate_import_command` has a template. -/
def importTemplatesEngine : List String := [
  "aws_instance", "aws_vpc", "aws_subnet", "aws_security_group",
  "aws_s3_bucket", "aws_db_instance", "aws_iam_role", "aws_lambda_function"]

/-- The `_generate_import_command` lookup: every template renders to the same
placeholder-bearing command string. -/
def generate_import_command (terraformType resourceName : String) (_cfType : String) :
    Option String :=
  if importTemplatesEngine.contains terraformType then
    some ("terraform import " ++ terraformType ++ "." ++ resourceName ++ " PHYSICAL_ID")
  else none

/-- Step 1 of `_generate_resource_name`: insert an underscore between a
lowercase letter or digit and an uppercase letter. -/
def camelSplit : List Char → List Char
  | [] => []
  | [c] => [c]
  | a :: b :: rest =>
    if (a.isLower || a.isDigit) && b.isUpper then a :: '_' :: camelSplit (b :: rest)
    else a :: camelSplit (b :: rest)

/-- Step 3 of `_generate_resource_name`: collapse runs of underscores. -/
def collapseUnderscores : List Char → List Char
  | [] => []
  | '_' :: '_' :: rest => collapseUnderscores ('_' :: rest)
  | c :: rest => c :: collapseUnderscores rest

/-- The `_generate_resource_name` transformation (snake-casing a logical
identifier). -/
def generate_resource_name (logicalId : String) : String :=
  let step1 := (camelSplit logicalId.data).map Char.toLower
  let step2 := step1.map (fun c => if c.isLower || c.isDigit || c = '_' then c else '_')
  let step3 := collapseUnderscores step2
  let step4 := (step3.dropWhile (fun c => c = '_')).reverse.dropWhile (fun c => c = '_')
  let name := String.mk step4.reverse
  if name == "" then "resource" else name

/-- The `_convert_nested_stack` conversion of a `AWS::CloudFormation::Stack`
resource into a Terraform module call. -/
def convert_nested_stack (fuel : Nat) (h : Handler) (ctx : Ctx) (logicalId : String)
    (resourceConfig : Value) : Except PyErr (Option ConvParts) :=
  let properties := (alookup (asDict resourceConfig) "Properties").getD (.dict [])
  match properties with
  | .dict pd =>
    let templateUrl := (alookup pd "TemplateURL").getD (.str "")
    let parameters := (alookup pd "Parameters").getD (.dict [])
    let moduleName := strToLower logicalId
    let moduleConfig0 : List (String × Value) :=
      [("source", .str ("# TODO: Convert nested stack template from " ++ pyStr templateUrl))]
    match parameters with
    | .dict ps =>
      let folded : Except PyErr (List (String × Value)) :=
        ps.foldl (fun acc kv =>
          match acc with
          | .error e => .error e
          | .ok cfg =>
            match (process_value h fuel ctx kv.2).2 with
            | .error e => .error e
            | .ok pvv => .ok (pyDictSet cfg (strToLower kv.1) pvv)) (.ok moduleConfig0)
      match folded with
      | .error e => .error e
      | .ok moduleConfig =>
        .ok (some {
          resources := [("module", .dict [(moduleName, .dict moduleConfig)])],
          import_commands := [],
          warnings := ["Nested stack " ++ logicalId ++ " requires manual template conversion"] })
    | _ => .error (.attrError "object has no attribute items")
  | _ => .error (.attrError "object has no attribute get")

/-- The `_convert_resource` conversion of a single resource: resources with
no type are skipped, unmapped types yield only a warning naming the type,
nested stacks become modules, and everything else is resolved, renamed,
transformed, and paired with an import command when one is known. -/
def convert_resource (fuel : Nat) (eng : Engine) (h : Handler) (ctx : Ctx)
    (logicalId : String) (resourceConfig : Value) : Except PyErr (Option ConvParts) :=
  match resourceConfig with
  | .dict rc =>
    match alookup rc "Type" with
    | none => .ok none
    | some cfType =>
      if !pyTruthy cfType then .ok none
      else
        match getTerraformTypeV cfType with
        | none =>
          .ok (some {
            resources := [],
            warnings := ["Unsupported resource type: " ++ pyStr cfType],
            import_commands := [] })
        | some tt =>
          if isStrEq cfType "AWS::CloudFormation::Stack" then
            convert_nested_stack fuel h ctx logicalId (.dict rc)
          else
            match cfType with
            | .str cts =>
              let cfProperties := (alookup rc "Properties").getD (.dict [])
              match (if eng.handle_functions then (process_value h fuel ctx cfProperties).2
                     else .ok cfProperties) with
              | .error e => .error e
              | .ok processed =>
                match map_properties cts processed with
                | .error e => .error e
                | .ok mapped =>
                  match apply_resource_transformations cts mapped logicalId with
                  | .error e => .error e
                  | .ok tfProps =>
                    let resourceName :=
                      if eng.preserve_names then strToLower logicalId
                      else generate_resource_name logicalId
                    let importCommand := generate_import_command tt resourceName cts
                    .ok (some {
                      resources := [(tt, .dict [(resourceName, tfProps)])],
                      import_commands := (match importCommand with
                                          | some c => [c]
                                          | none => []),
                      warnings := [] })
            | _ => .ok none
  | _ => .error (.attrError "object has no attribute get")

/-- The CloudFormation parameter-type table of `_map_parameter_type`. -/
def parameterTypeMapping : List (String × String) := [
  ("String", "string"),
  ("Number", "number"),
  ("CommaDelimitedList", "list(string)"),
  ("AWS::EC2::AvailabilityZone::Name", "string"),
  ("AWS::EC2::Image::Id", "string"),
  ("AWS::EC2::Instance::Id", "string"),
  ("AWS::EC2::KeyPair::KeyName", "string"),
  ("AWS::EC2::SecurityGroup::Id", "string"),
  ("AWS::EC2::Subnet::Id", "string"),
  ("AWS::EC2::VPC::Id", "string"),
  ("AWS::Route53::HostedZone::Id", "string"),
  ("AWS::SSM::Parameter::Value<String>", "string")]

/-- The `_map_parameter_type` lookup with its `string` default. -/
def map_parameter_type (cfType : Value) : String :=
  match cfType with
  | .str s => (alookup parameterTypeMapping s).getD "string"
  | _ => "string"

/-- Collect iterated elements for a string join; a non-string element raises
`TypeError`. -/
def collectStrItems : List Value → Except PyErr (List String)
  | [] => .ok []
  | .str s :: rest =>
    match collectStrItems rest with
    | .ok ss => .ok (s :: ss)
    | .error e => .error e
  | _ :: _ => .error (.typeError "sequence item: expected str instance")

/-- Python `", ".join(v)`: every iterated element must be a string. -/
def joinStrValues (v : Value) : Except PyErr String :=
  match pyIterate v with
  | .error e => .error e
  | .ok items =>
    match collectStrItems items with
    | .ok ss => .ok (joinWith ", " ss)
    | .error e => .error e

/-- The parameter loop of `_convert_parameters`. -/
def convert_parameters_go : List (String × Value) → List (String × Value) →
    Except PyErr (List (String × Value))
  | [], acc => .ok acc
  | (pname, pcfg) :: rest, acc =>
    match pcfg with
    | .dict pc =>
      let vname := strToLower pname
      let vdef0 : List (String × Value) := [
        ("description",
          (alookup pc "Description").getD (.str ("CloudFormation parameter " ++ pname))),
        ("type", .str (map_parameter_type ((alookup pc "Type").getD (.str "String"))))]
      let vdef1 :=
        match alookup pc "Default" with
        | some d => pyDictSet vdef0 "default" d
        | none => vdef0
      match alookup pc "AllowedValues" with
      | some av =>
        match joinStrValues av with
        | .error e => .error e
        | .ok joined =>
          let validation : Value := .dict [
            ("condition", .str ("contains(" ++ pyStr av ++ ", var." ++ vname ++ ")")),
            ("error_message", .str ("Value must be one of: " ++ joined))]
          convert_parameters_go rest
            (pyDictSet acc vname (.dict (pyDictSet vdef1 "validation" validation)))
      | none => convert_parameters_go rest (pyDictSet acc vname (.dict vdef1))
    | _ => .error (.attrError "object has no attribute get")

/-- The `_convert_parameters` phase: each parameter becomes a lowercase
variable with description, mapped type, optional default, and an optional
allowed-values validation block. -/
def convert_parameters (parameters : Value) : Except PyErr (List (String × Value)) :=
  match parameters with
  | .dict ps => convert_parameters_go ps []
  | _ => .error (.attrError "object has no attribute items")

/-- The `_convert_mappings` phase: each mapping table becomes a lowercase
local holding the table unchanged. -/
def convert_mappings (mappings : Value) : Except PyErr (List (String × Value)) :=
  match mappings with
  | .dict ms => .ok (ms.foldl (fun acc kv => pyDictSet acc (strToLower kv.1) kv.2) [])
  | _ => .error (.attrError "object has no attribute items")

/-- The `_convert_conditions` phase: every condition becomes a placeholder
comment local. -/
def convert_conditions (conditions : Value) : Except PyErr (List (String × Value)) :=
  match conditions with
  | .dict cs =>
    .ok (cs.foldl (fun acc kv =>
      pyDictSet acc (strToLower kv.1) (.str ("# TODO: Convert condition " ++ kv.1))) [])
  | _ => .error (.attrError "object has no attribute items")

/-- The output loop of `_convert_outputs`. -/
def convert_outputs_go (fuel : Nat) (h : Handler) (ctx : Ctx) :
    List (String × Value) → List (String × Value) →
    Except PyErr (List (String × Value))
  | [], acc => .ok acc
  | (oname, ocfg) :: rest, acc =>
    match ocfg with
    | .dict oc =>
      let desc0 := (alookup oc "Description").getD
        (.str ("CloudFormation output " ++ oname))
      match (process_value h fuel ctx ((alookup oc "Value").getD .null)).2 with
      | .error e => .error e
      | .ok pvv =>
        let withExport : Except PyErr Value :=
          match alookup oc "Export" with
          | some export_ =>
            match export_ with
            | .dict ed =>
              let ename := (alookup ed "Name").getD .null
              if pyTruthy ename then
                match desc0 with
                | .str d => .ok (.str (d ++ " (exported as " ++ pyStr ename ++ ")"))
                | _ => .error (.typeError "unsupported operand types")
              else .ok desc0
            | _ => .error (.attrError "object has no attribute get")
          | none => .ok desc0
        match withExport with
        | .error e => .error e
        | .ok desc =>
          convert_outputs_go fuel h ctx rest (pyDictSet acc (strToLower oname)
            (.dict [("description", desc), ("value", pvv)]))
    | _ => .error (.attrError "object has no attribute get")

/-- The `_convert_outputs` phase: each output gets a description (annotated
with the export name if declared) and its resolved value. -/
def convert_outputs (fuel : Nat) (h : Handler) (ctx : Ctx) (outputs : Value) :
    Except PyErr (List (String × Value)) :=
  match outputs with
  | .dict os => convert_outputs_go fuel h ctx os []
  | _ => .error (.attrError "object has no attribute items")

/-- The `_generate_data_sources` constant. -/
def generate_data_sources : List (String × Value) := [
  ("aws_region", .dict [("current", .dict [])]),
  ("aws_caller_identity", .dict [("current", .dict [])]),
  ("aws_partition", .dict [("current", .dict [])]),
  ("aws_availability_zones", .dict [("available", .dict [("state", .str "available")])])]

/-- The accumulator threaded through the per-resource loop of
`convert_template`. -/
structure LoopAcc where
  tfres : List (String × Value)
  imports : List String
  warnings : List String
  errors : List String

/-- The per-resource loop of `convert_template`: a raised exception is
caught per resource and recorded as an error string, every other resource is
still converted. -/
def resources_loop (fuel : Nat) (eng : Engine) (h : Handler) (ctx : Ctx) :
    List (String × Value) → LoopAcc → LoopAcc
  | [], acc => acc
  | (logicalId, cfg) :: rest, acc =>
    let acc2 :=
      match convert_resource fuel eng h ctx logicalId cfg with
      | .ok (some parts) =>
        { acc with
          tfres := pyDictUpdate acc.tfres parts.resources,
          imports := acc.imports ++ parts.import_commands,
          warnings := acc.warnings ++ parts.warnings }
      | .ok none => acc
      | .error e =>
        { acc with
          errors := acc.errors ++
            ["Failed to convert resource " ++ logicalId ++ ": " ++ pyErrStr e] }
    resources_loop fuel eng h ctx rest acc2

/-- Extraction of a top-level template section with its empty-dict default. -/
def tmplSection (template : List (String × Value)) (k : String) : Value :=
  (alookup template k).getD (.dict [])

/-- The handler built once per template conversion. -/
def tmplHandler (template : List (String × Value)) : Handler :=
  { parameters := asDict (tmplSection template "Parameters"),
    mappings := asDict (tmplSection template "Mappings") }

/-- The resolution context built once per template conversion. -/
def tmplCtx (template : List (String × Value)) : Ctx :=
  { resources := asDict (tmplSection template "Resources") }

/-- Append the outer-catch error of `convert_template` to a partial result. -/
def tmplFail (r : ConversionResult) (e : PyErr) : ConversionResult :=
  { r with errors := r.errors ++ ["Template conversion failed: " ++ pyErrStr e] }

/-- The `convert_template` pipeline: parameters to variables, mappings and
conditions to locals, the per-resource loop, outputs, data sources, and the
final locals block; a phase that raises is recorded by the outer catch and
ends the pipeline with the partial result. -/
def convert_template (fuel : Nat) (eng : Engine) (template : List (String × Value)) :
    ConversionResult :=
  let parameters := tmplSection template "Parameters"
  let mappings := tmplSection template "Mappings"
  let conditions := tmplSection template "Conditions"
  let resources := tmplSection template "Resources"
  let outputs := tmplSection template "Outputs"
  let h := tmplHandler template
  let ctx := tmplCtx template
  let r0 : ConversionResult :=
    { terraform_config := [], import_commands := [], variables_ := [],
      outputs := [], locals := [], warnings := [], errors := [] }
  match (if pyTruthy parameters then convert_parameters parameters else .ok []) with
  | .error e => tmplFail r0 e
  | .ok vars =>
    let r1 := { r0 with variables_ := vars }
    match (if pyTruthy mappings then convert_mappings mappings else .ok []) with
    | .error e => tmplFail r1 e
    | .ok mlocals =>
      let locals1 := pyDictUpdate [] mlocals
      let r2 := { r1 with locals := locals1 }
      match (if pyTruthy conditions then convert_conditions conditions else .ok []) with
      | .error e => tmplFail r2 e
      | .ok clocals =>
        let locals2 := pyDictUpdate locals1 clocals
        let r3 := { r2 with locals := locals2 }
        match asDictE resources with
        | .error e => tmplFail r3 e
        | .ok rs =>
          let acc := resources_loop fuel eng h ctx rs
            { tfres := [], imports := [], warnings := [], errors := [] }
          let r4 := { r3 with
            import_commands := acc.imports,
            warnings := acc.warnings,
            errors := r3.errors ++ acc.errors,
            terraform_config := pyDictSet r3.terraform_config "resource" (.dict acc.tfres) }
          match (if pyTruthy outputs then convert_outputs fuel h ctx outputs else .ok []) with
          | .error e => tmplFail r4 e
          | .ok outs =>
            let r5 := { r4 with outputs := outs }
            let ds := generate_data_sources
            let r6 :=
              if !ds.isEmpty then
                { r5 with terraform_config := pyDictSet r5.terraform_config "data" (.dict ds) }
              else r5
            if !r6.locals.isEmpty then
              { r6 with terraform_config := pyDictSet r6.terraform_config "locals" (.dict r6.locals) }
            else r6

/-- The outcome of one invocation of the external `terraform` process, as
observed by `_execute_terraform_command`: a completed process with its exit
code and streams, an expired timeout, or any other execution failure. -/
inductive CmdOutcome where
  | completed (returncode : Int) (stdout : String) (stderr : String)
  | timedOut
  | failed (msg : String)

/-- The process-wide mutable state touched by `_execute_terraform_command`:
the current working directory. -/
structure ProcState where
  cwd : String

/-- The dictionary returned by `_execute_terraform_command` on success. -/
structure TfCmdOut where
  returncode : Int
  stdout : String
  stderr : String
  command : String

/-- The `_execute_terraform_command` runner: remember the current directory,
change into the Terraform root, run the command, and restore the original
directory in the `finally` block whether the command completed, timed out,
or failed; timeouts and failures re-raise as wrapped exceptions. -/
def execute_terraform_command (terraformDir : String) (timeoutCfg : Nat)
    (command : String) (outcome : CmdOutcome) (s : ProcState) :
    Except PyErr TfCmdOut × ProcState :=
  let originalCwd := s.cwd
  let s1 : ProcState := { cwd := terraformDir }
  let step : Except PyErr TfCmdOut × ProcState :=
    match outcome with
    | .completed rc out err =>
      (.ok { returncode := rc, stdout := out, stderr := err, command := command }, s1)
    | .timedOut =>
      (.error (.err ("Command timed out after " ++ toString timeoutCfg ++
        " seconds: " ++ command)), s1)
    | .failed m =>
      (.error (.err ("Failed to execute command \x27" ++ command ++ "\x27: " ++ m)), s1)
  (step.1, { step.2 with cwd := originalCwd })

/-- The external world seen by the import executor: for each command string,
the outcome of its n-th run; `counts` records how many times each command
has already run. -/
structure World where
  behavior : String → Nat → CmdOutcome
  counts : List (String × Nat)

/-- Run a command against the world once, returning its outcome for the
current occurrence and bumping the occurrence counter. -/
def World.run (w : World) (cmd : String) : CmdOutcome × World :=
  let n := (alookup w.counts cmd).getD 0
  (w.behavior cmd n, { w with counts := pyDictSet w.counts cmd (n + 1) })

/-- The configuration of an `ImportManager`. -/
structure ImportConfig where
  parallel : Bool
  max_workers : Nat
  timeout : Nat
  retry_failed : Bool
  max_retries : Nat
  create_backup : Bool

/-- One parsed import command: the full command line, the resource address,
and the resource identifier. -/
structure CmdInfo where
  command : String
  address : String
  id : String

/-- The `ImportResult` dataclass (elapsed wall-clock time omitted). -/
structure ImportResult where
  resource_address : String
  resource_id : String
  success : Bool
  error_message : Option String
  retry_count : Nat

/-- The `ImportSummary` dataclass (total wall-clock time omitted). -/
structure ImportSummary where
  total_imports : Int
  successful_imports : Int
  failed_imports : Int
  results : List ImportResult
  errors : List String

/-- The `_execute_single_import` runner: the inner try/except turns every
outcome into an `ImportResult`, so this function itself never raises. -/
def execute_single_import (cfg : ImportConfig) (w : World) (cmdInfo : CmdInfo)
    (retryCount : Nat) : ImportResult × World :=
  let (outcome, w2) := w.run cmdInfo.command
  let result : ImportResult :=
    match outcome with
    | .completed rc _ err =>
      { resource_address := cmdInfo.address, resource_id := cmdInfo.id,
        success := rc == 0,
        error_message := if rc == 0 then none else some err,
        retry_count := retryCount }
    | .timedOut =>
      { resource_address := cmdInfo.address, resource_id := cmdInfo.id,
        success := false,
        error_message := some ("Command timed out after " ++ toString cfg.timeout ++
          " seconds: " ++ cmdInfo.command),
        retry_count := retryCount }
    | .failed m =>
      { resource_address := cmdInfo.address, resource_id := cmdInfo.id,
        success := false,
        error_message := some ("Failed to execute command \x27" ++ cmdInfo.command ++
          "\x27: " ++ m),
        retry_count := retryCount }
  (result, w2)

/-- The body of the `_execute_sequential_imports` loop: each command runs
once; on failure, when retries are enabled and the first attempt's retry
count is below the configured maximum, exactly one retry is appended as a
fresh `ImportResult` with retry count one, and a successful retry moves the
command from the failed to the successful tally. -/
def seq_loop (cfg : ImportConfig) : List CmdInfo → World → ImportSummary →
    ImportSummary × World
  | [], w, s => (s, w)
  | c :: rest, w, s =>
    let (r, w1) := execute_single_import cfg w c 0
    let s1 := { s with results := s.results ++ [r] }
    if r.success then
      seq_loop cfg rest w1 { s1 with successful_imports := s1.successful_imports + 1 }
    else
      let s2 := { s1 with failed_imports := s1.failed_imports + 1 }
      if cfg.retry_failed && decide (r.retry_count < cfg.max_retries) then
        let (r2, w2) := execute_single_import cfg w1 c (r.retry_count + 1)
        let s3 := { s2 with results := s2.results ++ [r2] }
        if r2.success then
          seq_loop cfg rest w2
            { s3 with successful_imports := s3.successful_imports + 1,
                      failed_imports := s3.failed_imports - 1 }
        else
          seq_loop cfg rest w2 { s3 with failed_imports := s3.failed_imports + 1 }
      else seq_loop cfg rest w1 s2

/-- The `_execute_sequential_imports` entry point. -/
def execute_sequential_imports (cfg : ImportConfig) (w : World)
    (cmds : List CmdInfo) : ImportSummary × World :=
  seq_loop cfg cmds w
    { total_imports := Int.ofNat cmds.length, successful_imports := 0,
      failed_imports := 0, results := [], errors := [] }

/-- The body of `_execute_parallel_imports`: every submitted command is
executed exactly once by the worker pool and contributes one result; no
retry is ever attempted.  The source collects results in completion order;
the tallies are invariant under that order, and the model collects them in
submission order. -/
def par_loop (cfg : ImportConfig) : List CmdInfo → World → ImportSummary →
    ImportSummary × World
  | [], w, s => (s, w)
  | c :: rest, w, s =>
    let (r, w1) := execute_single_import cfg w c 0
    let s1 := { s with results := s.results ++ [r] }
    if r.success then
      par_loop cfg rest w1 { s1 with successful_imports := s1.successful_imports + 1 }
    else
      par_loop cfg rest w1 { s1 with failed_imports := s1.failed_imports + 1 }

/-- The `_execute_parallel_imports` entry point. -/
def execute_parallel_imports (cfg : ImportConfig) (w : World)
    (cmds : List CmdInfo) : ImportSummary × World :=
  par_loop cfg cmds w
    { total_imports := Int.ofNat cmds.length, successful_imports := 0,
      failed_imports := 0, results := [], errors := [] }

/-- Python `line.split(' ', maxsplit)` restricted to the space separator. -/
def splitMaxAux (sep : Char) : List Char → Nat → List Char → List String
  | acc, _, [] => [String.mk acc.reverse]
  | acc, 0, cs => [String.mk (acc.reverse ++ cs)]
  | acc, n + 1, c :: cs =>
    if c = sep then String.mk acc.reverse :: splitMaxAux sep [] n cs
    else splitMaxAux sep (c :: acc) (n + 1) cs

/-- Python `s.split(' ', maxsplit)`. -/
def pySplitMax (s : String) (maxsplit : Nat) : List String :=
  splitMaxAux (Char.ofNat 32) [] maxsplit s.data

/-- The `_parse_import_script` line scan: keep stripped lines that start
with the import prefix, split each into at most four tokens, and record the
address and identifier tokens. -/
def parse_import_script (scriptLines : List String) : List CmdInfo :=
  scriptLines.foldr (fun line acc =>
    let l := strStrip line
    if strStartsWith l "terraform import " then
      let parts := pySplitMax l 3
      if parts.length >= 3 then
        { command := l,
          address := (parts.get? 2).getD "",
          id := if parts.length > 3 then (parts.get? 3).getD "" else "" } :: acc
      else acc
    else acc) []

/-- The `execute_import_script` driver: a missing script raises, an enabled
backup runs before anything else and its exception propagates uncaught
(the call sits before the try block), then the parsed commands run in
parallel when configured for more than one command, sequentially
otherwise. -/
def execute_import_script (cfg : ImportConfig) (scriptPath : String)
    (scriptExists : Bool) (backup : Except String Unit) (w : World)
    (scriptLines : List String) : Except PyErr (ImportSummary × World) :=
  if !scriptExists then
    .error (.err ("Import script not found: " ++ scriptPath))
  else
    match (if cfg.create_backup then backup else .ok ()) with
    | .error e => .error (.err e)
    | .ok _ =>
      let cmds := parse_import_script scriptLines
      if cfg.parallel && decide (cmds.length > 1) then
        .ok (execute_parallel_imports cfg w cmds)
      else
        .ok (execute_sequential_imports cfg w cmds)

/-! Theorems about the embedded program. -/

/-- A shared helper: a name found in the interpolation pseudo-parameter
table necessarily carries the pseudo prefix. -/
theorem subTable_mem_startsWith (n : String) (p : String)
    (hp : alookup awsPseudoParamsSubTable n = some p) :
    strStartsWith n "AWS::" = true := by
  simp only [awsPseudoParamsSubTable, alookup] at hp
  by_cases h1 : ("AWS::Region" == n) = true
  · cases eq_of_beq h1; rfl
  · by_cases h2 : ("AWS::AccountId" == n) = true
    · cases eq_of_beq h2; rfl
    · by_cases h3 : ("AWS::StackName" == n) = true
      · cases eq_of_beq h3; rfl
      · simp [h1, h2, h3] at hp

/-- C10: the internal command runner `_execute_terraform_command` restores
the process working directory unconditionally in its `finally` block: after
the call the working directory equals the one before it, whether the command
completed (with any exit code), timed out, or failed to execute. -/
theorem execute_terraform_command_restores_cwd
    (terraformDir : String) (timeoutCfg : Nat) (command : String)
    (outcome : CmdOutcome) (s : ProcState) :
    (execute_terraform_command terraformDir timeoutCfg command outcome s).2.cwd = s.cwd := by
  cases outcome <;> rfl

/-- C8: for a function-call node whose name is none of the recognized
intrinsic functions, the resolver returns normally (no exception) with a
marker string embedding both the function name and the stringified raw
arguments, and logs exactly one warning naming the function. -/
theorem unknown_intrinsic_returns_marker_and_logs
    (h : Handler) (pv : Value → RV) (ctx : Ctx) (funcName : String) (funcArgs : Value)
    (h1 : (funcName == "Ref") = false)
    (h2 : (funcName == "Fn::GetAtt") = false)
    (h3 : (funcName == "Fn::Join") = false)
    (h4 : (funcName == "Fn::Sub") = false)
    (h5 : (funcName == "Fn::Select") = false)
    (h6 : (funcName == "Fn::Split") = false)
    (h7 : (funcName == "Fn::Base64") = false)
    (h8 : (funcName == "Fn::GetAZs") = false)
    (h9 : (funcName == "Fn::FindInMap") = false)
    (h10 : (funcName == "Fn::If") = false) :
    handle_intrinsic_function h pv ctx funcName funcArgs =
      (["Unsupported intrinsic function: " ++ funcName],
       .ok (.str ("# TODO: Convert " ++ funcName ++ "(" ++ pyStr funcArgs ++ ")"))) := by
  simp [handle_intrinsic_function, h1, h2, h3, h4, h5, h6, h7, h8, h9, h10]

/-- C8 witness: the unrecognized function `Fn::Cidr` resolves to its marker
with one logged warning. -/
theorem unknown_intrinsic_returns_marker_and_logs_witness :
    handle_intrinsic_function { parameters := [], mappings := [] }
      (fun _ => ([], .ok .null)) { resources := [] } "Fn::Cidr" (.str "10.0.0.0/16") =
      (["Unsupported intrinsic function: Fn::Cidr"],
       .ok (.str "# TODO: Convert Fn::Cidr(10.0.0.0/16)")) :=
  unknown_intrinsic_returns_marker_and_logs _ _ _ _ _
    rfl rfl rfl rfl rfl rfl rfl rfl rfl rfl

/-- C3: a single-key mapping is dispatched to the intrinsic handler exactly
when its key is reserved (the function prefix family or the bare reference
alias); any other single-key mapping is resolved structurally, its key and
dictionary shape preserved around the recursively resolved child. -/
theorem process_value_function_call_dispatch
    (h : Handler) (ctx : Ctx) (fuel : Nat) (k : String) (v : Value) :
    (isReservedFunctionName k = true →
      process_value h (fuel + 1) ctx (.dict [(k, v)]) =
        handle_intrinsic_function h (process_value h fuel ctx) ctx k v)
    ∧ (isReservedFunctionName k = false →
      process_value h (fuel + 1) ctx (.dict [(k, v)]) =
        (match process_value h fuel ctx v with
         | (ls, .ok w) => (ls, .ok (.dict [(k, w)]))
         | (ls, .error e) => (ls, .error e))) := by
  constructor
  · intro hr
    simp [process_value, process_value_step, hr]
  · intro hr
    rcases hpv : process_value h fuel ctx v with ⟨ls, r⟩
    cases r <;>
      simp [process_value, process_value_step, hr, rvEntries, rvBind, rvOk, hpv]

/-- C3 witness: a reserved key dispatches to its resolver, while an ordinary
single-key mapping keeps its shape. -/
theorem process_value_function_call_dispatch_witness :
    (process_value { parameters := [], mappings := [] } 2 { resources := [] }
      (.dict [("Fn::Base64", .str "x")]) = ([], .ok (.str "base64encode(x)")))
    ∧ (process_value { parameters := [], mappings := [] } 2 { resources := [] }
      (.dict [("Config", .str "x")]) = ([], .ok (.dict [("Config", .str "x")]))) :=
  ⟨(process_value_function_call_dispatch _ _ 1 "Fn::Base64" (.str "x")).1 rfl,
   (process_value_function_call_dispatch _ _ 1 "Config" (.str "x")).2 rfl⟩

/-- C4 counterexample: a template whose only resource `MyRes` has the
unmapped type `AWS::Foo::Bar` records exactly one warning, but that warning
names the CloudFormation type and does not mention the logical name `MyRes`
anywhere, contradicting the claim that the warning references the logical
name. -/
theorem unsupported_type_warning_lacks_logical_name :
    (convert_template 10 defaultEngine
      [("Resources", .dict [("MyRes", .dict [("Type", .str "AWS::Foo::Bar")])])]).warnings =
      ["Unsupported resource type: AWS::Foo::Bar"]
    ∧ strContainsSub "Unsupported resource type: AWS::Foo::Bar" "MyRes" = false :=
  ⟨rfl, rfl⟩

/-- C4 (amended): a resource whose truthy type has no Terraform mapping is
absent from the produced resource set, contributes no import command, and
records exactly one warning — a warning that references the resource type;
the per-resource loop continues over the remaining resources unchanged
except for that appended warning. -/
theorem unsupported_type_warning_references_type
    (fuel : Nat) (eng : Engine) (h : Handler) (ctx : Ctx) (logicalId : String)
    (rc : List (String × Value)) (cfType : Value)
    (hty : alookup rc "Type" = some cfType)
    (htr : pyTruthy cfType = true)
    (hun : getTerraformTypeV cfType = none) :
    (convert_resource fuel eng h ctx logicalId (.dict rc) =
      .ok (some { resources := [], import_commands := [],
                  warnings := ["Unsupported resource type: " ++ pyStr cfType] }))
    ∧ (∀ (pre post : List (String × Value)) (acc : LoopAcc),
        resources_loop fuel eng h ctx (pre ++ (logicalId, .dict rc) :: post) acc =
          resources_loop fuel eng h ctx post
            (let a := resources_loop fuel eng h ctx pre acc
             { a with warnings :=
                a.warnings ++ ["Unsupported resource type: " ++ pyStr cfType] })) := by
  have hcr : convert_resource fuel eng h ctx logicalId (.dict rc) =
      .ok (some { resources := [], import_commands := [],
                  warnings := ["Unsupported resource type: " ++ pyStr cfType] }) := by
    simp [convert_resource, hty, htr, hun]
  refine ⟨hcr, ?_⟩
  intro pre post acc
  induction pre generalizing acc with
  | nil =>
    obtain ⟨t, i, wn, er⟩ := acc
    simp [resources_loop, hcr, pyDictUpdate]
  | cons x xs ih =>
    simp only [List.cons_append, resources_loop]
    exact ih _

/-- C4 witness: a concrete unmapped resource yields the empty resource set
and the single type-naming warning. -/
theorem unsupported_type_warning_references_type_witness :
    convert_resource 5 defaultEngine { parameters := [], mappings := [] }
      { resources := [] } "MyRes" (.dict [("Type", .str "AWS::Foo::Bar")]) =
      .ok (some { resources := [], import_commands := [],
                  warnings := ["Unsupported resource type: AWS::Foo::Bar"] }) :=
  (unsupported_type_warning_references_type 5 defaultEngine
    { parameters := [], mappings := [] } { resources := [] } "MyRes"
    [("Type", .str "AWS::Foo::Bar")] (.str "AWS::Foo::Bar") rfl rfl rfl).1

/-- C7 counterexample: with backup enabled and the pre-flight state-backup
copy failing, the claim predicts a summary whose warnings record the failure
while the batch still runs; instead `execute_import_script` propagates the
backup exception before any command is attempted and produces no summary at
all. -/
theorem backup_failure_aborts_concrete :
    execute_import_script
      { parallel := true, max_workers := 2, timeout := 300, retry_failed := true,
        max_retries := 2, create_backup := true }
      "import_resources.sh" true (.error "backup copy failed")
      { behavior := fun _ _ => .completed 0 "" "", counts := [] }
      ["terraform import aws_vpc.a vpc-1"] = .error (.err "backup copy failed") := rfl

/-- C7 (amended): with backup enabled, a failure of the pre-flight
state-backup copy propagates out of the import batch as the raised
exception — uncaught, before any command is attempted — independent of the
script contents or the external world, and no summary or warning is
produced. -/
theorem backup_failure_propagates
    (cfg : ImportConfig) (scriptPath : String) (w : World)
    (scriptLines : List String) (e : String)
    (hb : cfg.create_backup = true) :
    execute_import_script cfg scriptPath true (.error e) w scriptLines =
      .error (.err e) := by
  simp [execute_import_script, hb]

/-- C7 witness: a concrete failing backup aborts the batch with that
exception. -/
theorem backup_failure_propagates_witness :
    execute_import_script
      { parallel := false, max_workers := 1, timeout := 60, retry_failed := false,
        max_retries := 0, create_backup := true }
      "s.sh" true (.error "disk full")
      { behavior := fun _ _ => .completed 0 "" "", counts := [] } [] =
      .error (.err "disk full") :=
  backup_failure_propagates _ _ _ _ _ rfl

/-- C5 counterexample: the scenario template (one mapped resource whose only
property is a reference to the undeclared name `Undeclared`) produces zero
warnings in the conversion result, not the exactly one warning the claim
requires. -/
theorem undeclared_ref_yields_no_warning :
    (convert_template 10 defaultEngine [("Resources", .dict [("MyVPC", .dict [
      ("Type", .str "AWS::EC2::VPC"),
      ("Properties", .dict [("SomeProp", .dict [("Ref", .str "Undeclared")])])])])]).warnings.length
      = 0 := rfl

/-- C5 (amended): a template whose only resource refers by name to an
identifier that is no declared parameter, no template resource, and no
recognized pseudo-value converts that property to the unresolved-marker
string containing the name, and records no warning (and no error) in the
conversion result. -/
theorem undeclared_ref_marker_and_no_warning
    (fuel : Nat) (logicalId propKey nd : String)
    (hk1 : strStartsWith propKey "Fn::" = false)
    (hk2 : (propKey == "Ref") = false)
    (hnd1 : (logicalId == nd) = false)
    (hp1 : ("AWS::Region" == nd) = false)
    (hp2 : ("AWS::AccountId" == nd) = false)
    (hp3 : ("AWS::StackName" == nd) = false)
    (hp4 : ("AWS::StackId" == nd) = false)
    (hp5 : ("AWS::Partition" == nd) = false) :
    (convert_template (fuel + 2) defaultEngine [("Resources", .dict [(logicalId, .dict [
        ("Type", .str "AWS::EC2::VPC"),
        ("Properties", .dict [(propKey, .dict [("Ref", .str nd)])])])])]).warnings = []
    ∧ (convert_template (fuel + 2) defaultEngine [("Resources", .dict [(logicalId, .dict [
        ("Type", .str "AWS::EC2::VPC"),
        ("Properties", .dict [(propKey, .dict [("Ref", .str nd)])])])])]).errors = []
    ∧ alookup (convert_template (fuel + 2) defaultEngine [("Resources", .dict [(logicalId, .dict [
        ("Type", .str "AWS::EC2::VPC"),
        ("Properties", .dict [(propKey, .dict [("Ref", .str nd)])])])])]).terraform_config
        "resource" =
      some (.dict [("aws_vpc", .dict [(strToLower logicalId, .dict
        [((alookup ((alookup PROPERTY_MAPPINGS "aws_vpc").getD []) propKey).getD
            (strToLower propKey),
          .str ("# TODO: Resolve reference to " ++ nd))])])]) := by
  refine ⟨?_, ?_, ?_⟩ <;>
    simp [convert_template, tmplSection, tmplHandler, tmplCtx, tmplFail, asDict, asDictE,
      pyTruthy, alookup, resources_loop, convert_resource, getTerraformTypeV,
      get_terraform_type, RESOURCE_TYPE_MAPPING, isStrEq, map_properties,
      apply_resource_transformations, process_value, process_value_step,
      isReservedFunctionName, hk1, hk2, handle_intrinsic_function, handle_ref_value,
      handle_ref, refTypeOf, hnd1, hp1, hp2, hp3, hp4, hp5, awsPseudoParamsRef,
      rvEntries, rvBind, rvOk, pyDictSet, pyDictUpdate, convert_outputs,
      generate_import_command, importTemplatesEngine, generate_data_sources,
      defaultEngine, PROPERTY_MAPPINGS]

/-- C5 witness: the concrete scenario template yields the marker property,
no warning, and no error. -/
theorem undeclared_ref_marker_and_no_warning_witness :
    (convert_template 2 defaultEngine [("Resources", .dict [("MyVPC", .dict [
        ("Type", .str "AWS::EC2::VPC"),
        ("Properties", .dict [("SomeProp", .dict [("Ref", .str "Undeclared")])])])])]).warnings = []
    ∧ (convert_template 2 defaultEngine [("Resources", .dict [("MyVPC", .dict [
        ("Type", .str "AWS::EC2::VPC"),
        ("Properties", .dict [("SomeProp", .dict [("Ref", .str "Undeclared")])])])])]).errors = []
    ∧ alookup (convert_template 2 defaultEngine [("Resources", .dict [("MyVPC", .dict [
        ("Type", .str "AWS::EC2::VPC"),
        ("Properties", .dict [("SomeProp", .dict [("Ref", .str "Undeclared")])])])])]).terraform_config
        "resource" =
      some (.dict [("aws_vpc", .dict [("myvpc", .dict
        [("someprop", .str "# TODO: Resolve reference to Undeclared")])])]) :=
  undeclared_ref_marker_and_no_warning 0 "MyVPC" "SomeProp" "Undeclared"
    rfl rfl rfl rfl rfl rfl rfl rfl

/-- C1: per-unit failure isolation in `convert_template`.  First, at loop
level: a resource conversion that raises is caught, recorded as one error
string, and every other resource is converted exactly as it otherwise would
be.  Second, at template level: with the surrounding phases succeeding, the
outputs phase still runs after the loop and the result errors are exactly
the loop errors, so the returned `ConversionResult` covers everything that
could be converted. -/
theorem convert_template_isolates_resource_failures
    (fuel : Nat) (eng : Engine) (h : Handler) (ctx : Ctx) (logicalId : String)
    (cfg : Value) (e : PyErr)
    (hbad : convert_resource fuel eng h ctx logicalId cfg = .error e) :
    (∀ (pre post : List (String × Value)) (acc : LoopAcc),
      resources_loop fuel eng h ctx (pre ++ (logicalId, cfg) :: post) acc =
        resources_loop fuel eng h ctx post
          (let a := resources_loop fuel eng h ctx pre acc
           { a with errors := a.errors ++
              ["Failed to convert resource " ++ logicalId ++ ": " ++ pyErrStr e] }))
    ∧ (∀ (template : List (String × Value)) (vars mlocals clocals : List (String × Value))
        (rs : List (String × Value)) (outs : List (String × Value)),
        (if pyTruthy (tmplSection template "Parameters") then
          convert_parameters (tmplSection template "Parameters") else .ok []) = .ok vars →
        (if pyTruthy (tmplSection template "Mappings") then
          convert_mappings (tmplSection template "Mappings") else .ok []) = .ok mlocals →
        (if pyTruthy (tmplSection template "Conditions") then
          convert_conditions (tmplSection template "Conditions") else .ok []) = .ok clocals →
        asDictE (tmplSection template "Resources") = .ok rs →
        (if pyTruthy (tmplSection template "Outputs") then
          convert_outputs fuel (tmplHandler template) (tmplCtx template)
            (tmplSection template "Outputs") else .ok []) = .ok outs →
        (convert_template fuel eng template).outputs = outs
        ∧ (convert_template fuel eng template).errors =
            (resources_loop fuel eng (tmplHandler template) (tmplCtx template) rs
              { tfres := [], imports := [], warnings := [], errors := [] }).errors) := by
  constructor
  · intro pre post acc
    induction pre generalizing acc with
    | nil =>
      obtain ⟨t, i, wn, er⟩ := acc
      simp [resources_loop, hbad]
    | cons x xs ih =>
      simp only [List.cons_append, resources_loop]
      exact ih _
  · intro template vars mlocals clocals rs outs hP hM hC hR hO
    have hu : convert_template fuel eng template =
        (let acc := resources_loop fuel eng (tmplHandler template) (tmplCtx template) rs
          { tfres := [], imports := [], warnings := [], errors := [] }
         let locals2 := pyDictUpdate (pyDictUpdate [] mlocals) clocals
         let tc1 := pyDictSet (pyDictSet [] "resource" (.dict acc.tfres)) "data"
           (.dict generate_data_sources)
         { terraform_config :=
            if !locals2.isEmpty then pyDictSet tc1 "locals" (.dict locals2) else tc1,
           import_commands := acc.imports, variables_ := vars, outputs := outs,
           locals := locals2, warnings := acc.warnings, errors := acc.errors }) := by
      simp only [convert_template]
      rw [hP, hM, hC, hR, hO]
      simp [apply_ite, generate_data_sources]
      split <;> rename_i hcond <;> simp [hcond]
    constructor
    · rw [hu]
    · rw [hu]

/-- C1 witness: a template whose first resource has a list where a property
dictionary is expected (so its conversion raises) still converts the second
resource and the outputs, and records exactly the one loop error. -/
theorem convert_template_isolates_resource_failures_witness :
    (convert_template 10 defaultEngine
        [("Resources", .dict [
          ("BadRes", .dict [("Type", .str "AWS::EC2::VPC"), ("Properties", .list [.str "x"])]),
          ("GoodRes", .dict [("Type", .str "AWS::EC2::VPC"),
            ("Properties", .dict [("CidrBlock", .str "10.0.0.0/16")])])]),
         ("Outputs", .dict [("Out1", .dict [("Value", .str "v")])])]).outputs =
      [("out1", .dict [("description", .str "CloudFormation output Out1"),
        ("value", .str "v")])]
    ∧ (convert_template 10 defaultEngine
        [("Resources", .dict [
          ("BadRes", .dict [("Type", .str "AWS::EC2::VPC"), ("Properties", .list [.str "x"])]),
          ("GoodRes", .dict [("Type", .str "AWS::EC2::VPC"),
            ("Properties", .dict [("CidrBlock", .str "10.0.0.0/16")])])]),
         ("Outputs", .dict [("Out1", .dict [("Value", .str "v")])])]).errors =
      ["Failed to convert resource BadRes: object has no attribute items"] :=
  (convert_template_isolates_resource_failures 10 defaultEngine
    (tmplHandler [("Resources", .dict [
        ("BadRes", .dict [("Type", .str "AWS::EC2::VPC"), ("Properties", .list [.str "x"])]),
        ("GoodRes", .dict [("Type", .str "AWS::EC2::VPC"),
          ("Properties", .dict [("CidrBlock", .str "10.0.0.0/16")])])]),
       ("Outputs", .dict [("Out1", .dict [("Value", .str "v")])])])
    (tmplCtx [("Resources", .dict [
        ("BadRes", .dict [("Type", .str "AWS::EC2::VPC"), ("Properties", .list [.str "x"])]),
        ("GoodRes", .dict [("Type", .str "AWS::EC2::VPC"),
          ("Properties", .dict [("CidrBlock", .str "10.0.0.0/16")])])]),
       ("Outputs", .dict [("Out1", .dict [("Value", .str "v")])])])
    "BadRes" (.dict [("Type", .str "AWS::EC2::VPC"), ("Properties", .list [.str "x"])])
    (.attrError "object has no attribute items") rfl).2
    [("Resources", .dict [
        ("BadRes", .dict [("Type", .str "AWS::EC2::VPC"), ("Properties", .list [.str "x"])]),
        ("GoodRes", .dict [("Type", .str "AWS::EC2::VPC"),
          ("Properties", .dict [("CidrBlock", .str "10.0.0.0/16")])])]),
     ("Outputs", .dict [("Out1", .dict [("Value", .str "v")])])]
    [] [] []
    [("BadRes", .dict [("Type", .str "AWS::EC2::VPC"), ("Properties", .list [.str "x"])]),
     ("GoodRes", .dict [("Type", .str "AWS::EC2::VPC"),
       ("Properties", .dict [("CidrBlock", .str "10.0.0.0/16")])])]
    [("out1", .dict [("description", .str "CloudFormation output Out1"),
      ("value", .str "v")])]
    rfl rfl rfl rfl rfl

/-- A shared helper: `_execute_single_import` tags its result with exactly
the retry count it was invoked with. -/
theorem execute_single_import_retry_count (cfg : ImportConfig) (w : World)
    (c : CmdInfo) (n : Nat) : (execute_single_import cfg w c n).1.retry_count = n := by
  rcases hw : w.run c.command with ⟨o, wx⟩
  cases o <;> simp [execute_single_import, hw]

/-- A shared helper: every result collected by the parallel loop either was
already in the summary or carries retry count zero. -/
theorem par_loop_results_retry (cfg : ImportConfig) :
    ∀ (cmds : List CmdInfo) (w : World) (s : ImportSummary) (r : ImportResult),
      r ∈ (par_loop cfg cmds w s).1.results → r ∈ s.results ∨ r.retry_count = 0 := by
  intro cmds
  induction cmds with
  | nil =>
    intro w s r hr
    exact .inl hr
  | cons c rest ih =>
    intro w s r hr
    rcases hx : execute_single_import cfg w c 0 with ⟨r1, w1⟩
    have hr1 : r1.retry_count = 0 := by
      have := execute_single_import_retry_count cfg w c 0
      rw [hx] at this
      exact this
    simp only [par_loop, hx] at hr
    rcases hsucc : r1.success with _ | _ <;> simp only [hsucc] at hr
    · rcases ih w1 _ r hr with hmem | hzero
      · rcases List.mem_append.mp hmem with hs | hone
        · exact .inl hs
        · cases List.mem_singleton.mp hone
          exact .inr hr1
      · exact .inr hzero
    · rcases ih w1 _ r hr with hmem | hzero
      · rcases List.mem_append.mp hmem with hs | hone
        · exact .inl hs
        · cases List.mem_singleton.mp hone
          exact .inr hr1
      · exact .inr hzero

/-- C6 counterexample: the scenario batch of three commands with bounded
parallelism two, one command failing twice then succeeding, and max retries
two, yields a parallel run (no retries exist on that path) with successful
count 2 — not 3 — and the failing address contributes exactly one result
with retry count 0, so no results with retry counts 0, 1, and 2 appear. -/
theorem parallel_retry_scenario_fails :
    ((execute_import_script
      { parallel := true, max_workers := 2, timeout := 300, retry_failed := true,
        max_retries := 2, create_backup := false }
      "import_resources.sh" true (.ok ())
      { behavior := fun cmd n =>
          if cmd == "terraform import aws_instance.c i-1" then
            (if n < 2 then .completed 1 "" "import failed" else .completed 0 "" "")
          else .completed 0 "" "", counts := [] }
      ["terraform import aws_vpc.a vpc-1",
       "terraform import aws_subnet.b subnet-1",
       "terraform import aws_instance.c i-1"]).map
        (fun p => (p.1.successful_imports,
          p.1.results.map (fun r => (r.resource_address, r.retry_count, r.success))))) =
      .ok (2, [("aws_vpc.a", 0, true), ("aws_subnet.b", 0, true),
               ("aws_instance.c", 0, false)]) := rfl

/-- C6 (amended): in sequential mode a failed command with retries enabled
and a positive retry budget is re-attempted exactly once — the retry is
appended as a fresh `ImportResult` with retry count one, the original failed
result is preserved in the list, and a successful retry is tallied as
successful with no failure remaining; in parallel mode no retry happens:
every collected result carries retry count zero. -/
theorem sequential_single_retry_appends
    (cfg : ImportConfig) (w : World) (c : CmdInfo)
    (r0 : ImportResult) (w1 : World) (r1 : ImportResult) (w2 : World)
    (hrf : cfg.retry_failed = true) (hmr : 0 < cfg.max_retries)
    (h0 : execute_single_import cfg w c 0 = (r0, w1))
    (h1 : execute_single_import cfg w1 c 1 = (r1, w2))
    (hf : r0.success = false) (hs : r1.success = true) :
    ((execute_sequential_imports cfg w [c]).1.results = [r0, r1]
      ∧ (execute_sequential_imports cfg w [c]).1.successful_imports = 1
      ∧ (execute_sequential_imports cfg w [c]).1.failed_imports = 0
      ∧ r0.retry_count = 0 ∧ r1.retry_count = 1)
    ∧ (∀ (cmds : List CmdInfo) (wp : World) (r : ImportResult),
        r ∈ (execute_parallel_imports cfg wp cmds).1.results → r.retry_count = 0) := by
  have hr0 : r0.retry_count = 0 := by
    have := execute_single_import_retry_count cfg w c 0
    rw [h0] at this
    exact this
  have hr1 : r1.retry_count = 1 := by
    have := execute_single_import_retry_count cfg w1 c 1
    rw [h1] at this
    exact this
  constructor
  · refine ⟨?_, ?_, ?_, hr0, hr1⟩ <;>
      simp [execute_sequential_imports, seq_loop, h0, hf, hrf, hr0, hmr, h1, hs]
  · intro cmds wp r hr
    rcases par_loop_results_retry cfg cmds wp _ r hr with hmem | hzero
    · simp at hmem
    · exact hzero

/-- C6 witness: a concrete command that fails once then succeeds is retried
once in sequential mode, with both results kept and the summary counting the
command as successful. -/
theorem sequential_single_retry_appends_witness :
    ((execute_sequential_imports
        { parallel := false, max_workers := 1, timeout := 300, retry_failed := true,
          max_retries := 2, create_backup := false }
        { behavior := fun _ n => if n == 0 then .completed 1 "" "boom"
            else .completed 0 "" "", counts := [] }
        [{ command := "terraform import addr.a id-a", address := "addr.a",
           id := "id-a" }]).1.results =
      [{ resource_address := "addr.a", resource_id := "id-a", success := false,
         error_message := some "boom", retry_count := 0 },
       { resource_address := "addr.a", resource_id := "id-a", success := true,
         error_message := none, retry_count := 1 }]
    ∧ (execute_sequential_imports
        { parallel := false, max_workers := 1, timeout := 300, retry_failed := true,
          max_retries := 2, create_backup := false }
        { behavior := fun _ n => if n == 0 then .completed 1 "" "boom"
            else .completed 0 "" "", counts := [] }
        [{ command := "terraform import addr.a id-a", address := "addr.a",
           id := "id-a" }]).1.successful_imports = 1
    ∧ (execute_sequential_imports
        { parallel := false, max_workers := 1, timeout := 300, retry_failed := true,
          max_retries := 2, create_backup := false }
        { behavior := fun _ n => if n == 0 then .completed 1 "" "boom"
            else .completed 0 "" "", counts := [] }
        [{ command := "terraform import addr.a id-a", address := "addr.a",
           id := "id-a" }]).1.failed_imports = 0
    ∧ (0 : Nat) = 0 ∧ (1 : Nat) = 1) :=
  (sequential_single_retry_appends
    { parallel := false, max_workers := 1, timeout := 300, retry_failed := true,
      max_retries := 2, create_backup := false }
    { behavior := fun _ n => if n == 0 then .completed 1 "" "boom"
        else .completed 0 "" "", counts := [] }
    { command := "terraform import addr.a id-a", address := "addr.a", id := "id-a" }
    { resource_address := "addr.a", resource_id := "id-a", success := false,
      error_message := some "boom", retry_count := 0 }
    { behavior := fun _ n => if n == 0 then .completed 1 "" "boom"
        else .completed 0 "" "", counts := [("terraform import addr.a id-a", 1)] }
    { resource_address := "addr.a", resource_id := "id-a", success := true,
      error_message := none, retry_count := 1 }
    { behavior := fun _ n => if n == 0 then .completed 1 "" "boom"
        else .completed 0 "" "", counts := [("terraform import addr.a id-a", 2)] }
    rfl (by decide) rfl rfl rfl rfl).1

/-- A shared helper: subscripting failures are always of the kinds swallowed
by the static map-lookup attempt. -/
theorem valueIndex_soft (v : Value) (k : String) (e : PyErr)
    (hv : valueIndex v k = .error e) : isSoftErr e = true := by
  cases v with
  | dict d =>
    rcases halk : alookup d k with _ | x
    · simp [valueIndex, halk] at hv
      cases hv; rfl
    · simp [valueIndex, halk] at hv
  | str sv =>
    simp [valueIndex] at hv
    cases hv; rfl
  | int n =>
    simp [valueIndex] at hv
    cases hv; rfl
  | bool b =>
    simp [valueIndex] at hv
    cases hv; rfl
  | null =>
    simp [valueIndex] at hv
    cases hv; rfl
  | list xs =>
    simp [valueIndex] at hv
    cases hv; rfl

/-- C9: a map lookup whose table is known and whose two keys resolve to
literal strings present in the table substitutes the looked-up value as a
quoted string; when a key is missing at either level, or the table is
unknown, the resolver emits the runtime local-value lookup expression
instead (re-resolving both keys, so their logs repeat). -/
theorem find_in_map_static_and_dynamic
    (h : Handler) (pv : Value → RV) (mn : String) (k1 k2 : Value)
    (l1 l2 : List String) (s1 s2 : String)
    (hk1 : pv k1 = (l1, .ok (.str s1)))
    (hk2 : pv k2 = (l2, .ok (.str s2))) :
    (∀ mv x value, alookup h.mappings mn = some mv →
      valueIndex mv s1 = .ok x → valueIndex x s2 = .ok value →
      handle_find_in_map h pv (.list [.str mn, k1, k2]) =
        (l1 ++ l2, .ok (.str ("\"" ++ pyStr value ++ "\""))))
    ∧ (∀ mv e, alookup h.mappings mn = some mv → valueIndex mv s1 = .error e →
      handle_find_in_map h pv (.list [.str mn, k1, k2]) =
        (l1 ++ l2 ++ (l1 ++ l2),
         .ok (.str ("local." ++ strToLower mn ++ "[" ++ s1 ++ "][" ++ s2 ++ "]"))))
    ∧ (∀ mv x e, alookup h.mappings mn = some mv → valueIndex mv s1 = .ok x →
      valueIndex x s2 = .error e →
      handle_find_in_map h pv (.list [.str mn, k1, k2]) =
        (l1 ++ l2 ++ (l1 ++ l2),
         .ok (.str ("local." ++ strToLower mn ++ "[" ++ s1 ++ "][" ++ s2 ++ "]"))))
    ∧ (alookup h.mappings mn = none →
      handle_find_in_map h pv (.list [.str mn, k1, k2]) =
        (l1 ++ l2,
         .ok (.str ("local." ++ strToLower mn ++ "[" ++ s1 ++ "][" ++ s2 ++ "]")))) := by
  refine ⟨?_, ?_, ?_, ?_⟩
  · intro mv x value hm hx hval
    simp [handle_find_in_map, pyLen, pyUnpack3, pyInDict, hm, hk1, hk2, hx, hval]
  · intro mv e hm hx
    have hsoft := valueIndex_soft mv s1 e hx
    simp [handle_find_in_map, pyLen, pyUnpack3, pyInDict, hm, hk1, hk2, hx, hsoft,
      fimFallbackWith, fimFallback, rvBind, pyStr]
  · intro mv x e hm hx hval
    have hsoft := valueIndex_soft x s2 e hval
    simp [handle_find_in_map, pyLen, pyUnpack3, pyInDict, hm, hk1, hk2, hx, hval, hsoft,
      fimFallbackWith, fimFallback, rvBind, pyStr]
  · intro hm
    simp [handle_find_in_map, pyLen, pyUnpack3, pyInDict, hm, hk1, hk2,
      fimFallback, rvBind, pyStr]

/-- C9 witness: a concrete known table with present keys resolves statically
to the quoted literal, and a missing second-level key falls back to the
runtime lookup expression. -/
theorem find_in_map_static_and_dynamic_witness :
    (handle_find_in_map
        { parameters := [],
          mappings := [("RegionMap", .dict [("us-east-1", .dict [("AMI", .str "ami-123")])])] }
        (fun v => ([], .ok v))
        (.list [.str "RegionMap", .str "us-east-1", .str "AMI"]) =
      ([], .ok (.str "\"ami-123\"")))
    ∧ (handle_find_in_map
        { parameters := [],
          mappings := [("RegionMap", .dict [("us-east-1", .dict [("AMI", .str "ami-123")])])] }
        (fun v => ([], .ok v))
        (.list [.str "RegionMap", .str "us-east-1", .str "Missing"]) =
      ([], .ok (.str "local.regionmap[us-east-1][Missing]"))) :=
  ⟨(find_in_map_static_and_dynamic
      { parameters := [],
        mappings := [("RegionMap", .dict [("us-east-1", .dict [("AMI", .str "ami-123")])])] }
      (fun v => ([], .ok v)) "RegionMap" (.str "us-east-1") (.str "AMI")
      [] [] "us-east-1" "AMI" rfl rfl).1
      (.dict [("us-east-1", .dict [("AMI", .str "ami-123")])])
      (.dict [("AMI", .str "ami-123")]) (.str "ami-123") rfl rfl rfl,
   (find_in_map_static_and_dynamic
      { parameters := [],
        mappings := [("RegionMap", .dict [("us-east-1", .dict [("AMI", .str "ami-123")])])] }
      (fun v => ([], .ok v)) "RegionMap" (.str "us-east-1") (.str "Missing")
      [] [] "us-east-1" "Missing" rfl rfl).2.2.1
      (.dict [("us-east-1", .dict [("AMI", .str "ami-123")])])
      (.dict [("AMI", .str "ami-123")]) (.keyError "Missing") rfl rfl rfl⟩

/-- C2: the interpolation resolver applies `replace_var` to every scanned
placeholder of the template string (both the bare form and the two-element
form), and `replace_var` resolves each placeholder name by the fixed
priority: explicit substitution map first, then recognized environment
pseudo-values, then declared parameters, then same-template resources, and
verbatim otherwise; the resolver is a pure function, so repeated runs on the
same node and context produce the identical output. -/
theorem handle_sub_priority_and_determinism
    (h : Handler) (ctx : Ctx) (pvars : List (String × Value)) (n : String)
    (pv : Value → RV) :
    (∀ t : String, handle_sub h pv ctx (.str t) =
      ([], .ok (.str ("\"" ++ renderSub (replace_var h ctx []) (scanSub t.data) ++ "\""))))
    ∧ (∀ (t : String) (vars : List (String × Value)) (l : List String),
        rvEntries pv vars = (l, .ok pvars) →
        handle_sub h pv ctx (.list [.str t, .dict vars]) =
          (l, .ok (.str ("\"" ++ renderSub (replace_var h ctx pvars) (scanSub t.data) ++ "\""))))
    ∧ (∀ v, alookup pvars n = some v →
        replace_var h ctx pvars n = substWrap (pyStr v))
    ∧ (∀ p, alookup pvars n = none → alookup awsPseudoParamsSubTable n = some p →
        replace_var h ctx pvars n = substWrap p)
    ∧ (alookup pvars n = none → alookup awsPseudoParamsSubTable n = none →
        (alookup h.parameters n).isSome = true →
        replace_var h ctx pvars n = substWrap ("var." ++ strToLower n))
    ∧ (alookup pvars n = none → alookup awsPseudoParamsSubTable n = none →
        alookup h.parameters n = none → (alookup ctx.resources n).isSome = true →
        replace_var h ctx pvars n = substWrap (handle_ref h ctx n))
    ∧ (alookup pvars n = none → alookup awsPseudoParamsSubTable n = none →
        alookup h.parameters n = none → alookup ctx.resources n = none →
        replace_var h ctx pvars n = substWrap n)
    ∧ (∀ a, handle_sub h pv ctx a = handle_sub h pv ctx a) := by
  refine ⟨?_, ?_, ?_, ?_, ?_, ?_, ?_, ?_⟩
  · intro t
    rfl
  · intro t vars l hv
    simp [handle_sub, hv, rvBind]
  · intro v hv
    simp [replace_var, hv]
  · intro p hnone hp
    have hsw := subTable_mem_startsWith n p hp
    simp [replace_var, hnone, hsw, hp]
  · intro hnone hps hparam
    simp [replace_var, hnone, hps, hparam]
  · intro hnone hps hparam hres
    simp [replace_var, hnone, hps, hparam, hres]
  · intro hnone hps hparam hres
    simp [replace_var, hnone, hps, hparam, hres]
  · intro a
    rfl

/-- C2 witness: concrete placeholders resolve through each priority level
and the scenario template renders with the parameter reference embedded
between its prefix and suffix. -/
theorem handle_sub_priority_and_determinism_witness :
    (handle_sub { parameters := [("EnvParam", .dict [("Type", .str "String")])], mappings := [] }
      (fun _ => ([], .ok (.str "var.envparam"))) { resources := [] }
      (.list [.str ("prefix-$" ++ String.mk [lbraceC] ++ "Env" ++ String.mk [rbraceC] ++ "-suffix"),
        .dict [("Env", .dict [("Ref", .str "EnvParam")])]]) =
      ([], .ok (.str ("\"prefix-$" ++ String.mk [lbraceC] ++ "var.envparam" ++
        String.mk [rbraceC] ++ "-suffix\""))))
    ∧ (replace_var { parameters := [("EnvParam", .dict [])], mappings := [] }
        { resources := [] } [("Env", .str "var.envparam")] "Env" =
      substWrap "var.envparam")
    ∧ (replace_var { parameters := [("EnvParam", .dict [])], mappings := [] }
        { resources := [] } [] "AWS::Region" =
      substWrap "data.aws_region.current.name")
    ∧ (replace_var { parameters := [("EnvParam", .dict [])], mappings := [] }
        { resources := [] } [] "EnvParam" =
      substWrap "var.envparam")
    ∧ (replace_var { parameters := [], mappings := [] }
        { resources := [("Res1", .dict [("Type", .str "AWS::EC2::VPC")])] } [] "Res1" =
      substWrap (handle_ref { parameters := [], mappings := [] }
        { resources := [("Res1", .dict [("Type", .str "AWS::EC2::VPC")])] } "Res1"))
    ∧ (replace_var { parameters := [], mappings := [] } { resources := [] } [] "Unknown" =
      substWrap "Unknown") :=
  ⟨(handle_sub_priority_and_determinism
      { parameters := [("EnvParam", .dict [("Type", .str "String")])], mappings := [] }
      { resources := [] } [("Env", .str "var.envparam")] "Env"
      (fun _ => ([], .ok (.str "var.envparam")))).2.1
      ("prefix-$" ++ String.mk [lbraceC] ++ "Env" ++ String.mk [rbraceC] ++ "-suffix")
      [("Env", .dict [("Ref", .str "EnvParam")])] [] rfl,
   (handle_sub_priority_and_determinism
      { parameters := [("EnvParam", .dict [])], mappings := [] } { resources := [] }
      [("Env", .str "var.envparam")] "Env" (fun v => ([], .ok v))).2.2.1
      (.str "var.envparam") rfl,
   (handle_sub_priority_and_determinism
      { parameters := [("EnvParam", .dict [])], mappings := [] } { resources := [] }
      [] "AWS::Region" (fun v => ([], .ok v))).2.2.2.1
      "data.aws_region.current.name" rfl rfl,
   (handle_sub_priority_and_determinism
      { parameters := [("EnvParam", .dict [])], mappings := [] } { resources := [] }
      [] "EnvParam" (fun v => ([], .ok v))).2.2.2.2.1 rfl rfl rfl,
   (handle_sub_priority_and_determinism
      { parameters := [], mappings := [] }
      { resources := [("Res1", .dict [("Type", .str "AWS::EC2::VPC")])] }
      [] "Res1" (fun v => ([], .ok v))).2.2.2.2.2.1 rfl rfl rfl rfl,
   (handle_sub_priority_and_determinism
      { parameters := [], mappings := [] } { resources := [] }
      [] "Unknown" (fun v => ([], .ok v))).2.2.2.2.2.2.1 rfl rfl rfl rfl⟩

end CFTF
